import Mathlib

/-!
# SensorV2: sensor telemetry collector and sensor client

A shallow embedding of `src/SensorV2/protocol.h`, `src/SensorV2/server.c` and
`src/SensorV2/client.c`, followed by the list operations of
`src/MessagingApp/server.c` and `src/Sensori/server.c`.

* C structs become Lean structures; `uint8_t`, `size_t` and `ssize_t` values are
  `Nat` / `Int` (the only arithmetic on them, `currentActive++`, is taken modulo
  the width of `size_t`).
* A `const Sensor*` is an `Option Sensor`: `none` is `NULL`, `some s` is a pointer
  to a record holding `s`.
* The results of system calls (`accept`, `recv`, `send`, `malloc`, ...) are inputs
  of the functions that embed the code around them; the effects of the code
  (`send`, `close`, `printf`, `pthread_create`, `exit`, ...) are recorded as a
  list of events in program order.
-/

namespace SensorV2

/-! ## protocol.h -/

/-- The macro `#define CONNECTION_PORT 4040` -/
def CONNECTION_PORT : Nat := 4040

/-- The macro `#define SEND_PORT 5050` -/
def SEND_PORT : Nat := 5050

/-- The macro `#define ALERT_PORT 6060` -/
def ALERT_PORT : Nat := 6060

/-- The macro `#define MAX_SENSORS UINT8_MAX` -/
def MAX_SENSORS : Nat := 255

/-- The macro `#define SENSOR_REACTIVATE_TIME 3` -/
def SENSOR_REACTIVATE_TIME : Nat := 3

/-- The macro `#define MAX_ALERT_TEMPERATURE 50` -/
def MAX_ALERT_TEMPERATURE : Nat := 50

/-- The macro `#define MAX_ALERT_HUMIDITY 60` -/
def MAX_ALERT_HUMIDITY : Nat := 60

/-- The macro `#define MIN_ALERT_AIR_QUALITY 10` -/
def MIN_ALERT_AIR_QUALITY : Nat := 10

/-- The fields of `struct sockaddr_in` (family, port and IPv4 address, the last
two as stored, in network byte order). -/
structure SockAddrIn where
  sin_family : Nat
  sin_port : Nat
  sin_addr : Nat
  deriving DecidableEq, Repr

/-- The type `typedef struct SensorTag { uint8_t id; struct sockaddr_in addr; } Sensor;` -/
structure Sensor where
  id : Nat
  addr : SockAddrIn
  deriving DecidableEq, Repr

/-- The type `typedef struct SensorPayloadTag { time_t timestamp; uint8_t temperature;
uint8_t humidity; uint8_t airQuality; } SensorPayload;` -/
structure SensorPayload where
  timestamp : Int
  temperature : Nat
  humidity : Nat
  airQuality : Nat
  deriving DecidableEq, Repr

/-- The type `typedef enum SensorAlertTypeTag { ALERT, REACTIVATE } SensorAlertType;`
The value travels on the wire as an integer, so a received type can be any
number; the two enumerators are `0` and `1`. -/
abbrev SensorAlertType := Nat

/-- The enumerator `ALERT` (value 0). -/
def ALERT : SensorAlertType := 0

/-- The enumerator `REACTIVATE` (value 1). -/
def REACTIVATE : SensorAlertType := 1

/-- The type `typedef struct SensorAlertTag { SensorAlertType type; Sensor sensor; } SensorAlert;` -/
structure SensorAlert where
  type : SensorAlertType
  sensor : Sensor
  deriving DecidableEq, Repr

/-- The size `sizeof(struct sockaddr_in)`: 16 bytes. -/
def SIZEOF_SOCKADDR_IN : Nat := 16

/-- The size `sizeof(Sensor)` under `#pragma pack(1)`: one byte of id and the address. -/
def SIZEOF_SENSOR : Nat := 1 + SIZEOF_SOCKADDR_IN

/-- The size `sizeof(SensorPayload)` under `#pragma pack(1)`: an 8-byte `time_t` and three bytes. -/
def SIZEOF_SENSOR_PAYLOAD : Nat := 8 + 1 + 1 + 1

/-- The size `sizeof(SensorAlert)` under `#pragma pack(1)`: a 4-byte enum and a `Sensor`. -/
def SIZEOF_SENSOR_ALERT : Nat := 4 + SIZEOF_SENSOR

/-! ## client.c: the alert predicate -/

/-- The function `bool alert(const SensorPayload* p)` (client.c, lines 149-153). -/
def alert (p : SensorPayload) : Bool :=
  decide (p.temperature > MAX_ALERT_TEMPERATURE)
    || decide (p.humidity > MAX_ALERT_HUMIDITY)
    || decide (p.airQuality < MIN_ALERT_AIR_QUALITY)

/-! ## client.c: the alert rendezvous and the send loop -/

/-- The macro `#define TICK 2` of client.c. -/
def TICK : Nat := 2

/-- The exit status `EXIT_FAILURE`. -/
def EXIT_FAILURE : Nat := 1

/-- The function `htons` on a little-endian host: the two bytes of a 16-bit value swapped. -/
def htons (x : Nat) : Nat :=
  (x % 256) * 256 + (x / 256) % 256

/-- The observable actions of the client, in program order. -/
inductive ClientEvent where
  /-- a call `puts(msg)` -/
  | puts (msg : String)
  /-- a call `perror(msg)` -/
  | perror (msg : String)
  /-- a call `fprintf(stderr, ...)`, named by the start of its format string -/
  | stderr (msg : String)
  /-- a call `printf(msg)` -/
  | printed (msg : String)
  /-- a call `connect(fd, &addr, sizeof addr)` -/
  | connected (fd : Int) (addr : SockAddrIn)
  /-- a call `send(fd, &msg, len, 0)` -/
  | sentAlert (fd : Int) (msg : SensorAlert) (len : Nat)
  /-- a call `recv(fd, &alertMsg, len, 0)` -/
  | received (fd : Int) (len : Nat)
  /-- a call `close(fd)` -/
  | closed (fd : Int)
  /-- a call `sendto(fd, &payload, len, 0, &addr, sizeof addr)` -/
  | sentPayload (fd : Int) (payload : SensorPayload) (len : Nat) (addr : SockAddrIn)
  /-- a call `printf(PAYLOAD_FORMAT_SPECIFIER, id, time, temperature, humidity, airQuality)` -/
  | printedPayload (id : Nat) (payload : SensorPayload)
  /-- a call `sleep(secs)` -/
  | slept (secs : Nat)
  deriving DecidableEq, Repr

/-- How a client routine ends: it returns to its caller, or it calls `exit`, which
terminates the process. -/
inductive Outcome where
  /-- the routine returned -/
  | returned
  /-- the routine called `exit(status)` -/
  | exited (status : Nat)
  deriving DecidableEq, Repr

/-- What the environment answers during one run of `alertWait`. -/
structure AlertIO where
  /-- the value returned by `socket` -/
  socketFD : Int
  /-- the value returned by `connect` -/
  connectRes : Int
  /-- the value returned by `send` -/
  bytesSent : Int
  /-- the value returned by `recv` -/
  bytesReceived : Int
  /-- the contents of `alertMsg` after `recv` -/
  reply : SensorAlert
  deriving DecidableEq, Repr

/-- The routine `void* alertWait(void* arg)` (client.c, lines 155-209), run on the
sensor record `arg` points to: its actions and how it ends. -/
def alertWait (sensor : Sensor) (io : AlertIO) : List ClientEvent × Outcome :=
  let fd := io.socketFD
  let alertMsg : SensorAlert := { type := ALERT, sensor := sensor }
  if fd < 0 then
    ([ClientEvent.perror "Alert socket creation failed", ClientEvent.closed fd],
      Outcome.exited EXIT_FAILURE)
  else if io.connectRes < 0 then
    ([ClientEvent.connected fd sensor.addr,
      ClientEvent.perror "Alert connection failed", ClientEvent.closed fd],
      Outcome.exited EXIT_FAILURE)
  else if io.bytesSent < 0 then
    ([ClientEvent.connected fd sensor.addr,
      ClientEvent.sentAlert fd alertMsg SIZEOF_SENSOR_ALERT,
      ClientEvent.perror "Send failed", ClientEvent.closed fd],
      Outcome.exited EXIT_FAILURE)
  else if io.bytesSent ≠ (SIZEOF_SENSOR_ALERT : Int) then
    ([ClientEvent.connected fd sensor.addr,
      ClientEvent.sentAlert fd alertMsg SIZEOF_SENSOR_ALERT,
      ClientEvent.stderr "Sent only", ClientEvent.closed fd],
      Outcome.exited EXIT_FAILURE)
  else if io.bytesReceived < 0 then
    ([ClientEvent.connected fd sensor.addr,
      ClientEvent.sentAlert fd alertMsg SIZEOF_SENSOR_ALERT,
      ClientEvent.received fd SIZEOF_SENSOR_ALERT,
      ClientEvent.perror "Reactivate receive failed", ClientEvent.closed fd],
      Outcome.exited EXIT_FAILURE)
  else if io.bytesReceived ≠ (SIZEOF_SENSOR_ALERT : Int) then
    ([ClientEvent.connected fd sensor.addr,
      ClientEvent.sentAlert fd alertMsg SIZEOF_SENSOR_ALERT,
      ClientEvent.received fd SIZEOF_SENSOR_ALERT,
      ClientEvent.perror "Partial message reactivation", ClientEvent.closed fd],
      Outcome.exited EXIT_FAILURE)
  else if io.reply.type = ALERT then
    ([ClientEvent.connected fd sensor.addr,
      ClientEvent.sentAlert fd alertMsg SIZEOF_SENSOR_ALERT,
      ClientEvent.received fd SIZEOF_SENSOR_ALERT,
      ClientEvent.perror "Alert Error message received"],
      Outcome.exited EXIT_FAILURE)
  else
    ([ClientEvent.connected fd sensor.addr,
      ClientEvent.sentAlert fd alertMsg SIZEOF_SENSOR_ALERT,
      ClientEvent.received fd SIZEOF_SENSOR_ALERT,
      ClientEvent.closed fd],
      Outcome.returned)

/-- What `pthread_join` does when it is called with a thread id that
`pthread_create` did not set (the id is indeterminate): the behaviour is
undefined. -/
inductive StaleJoin where
  /-- the call returns, with or without an error code -/
  | returns
  /-- the call does not return: the process crashes or stays blocked -/
  | neverReturns
  deriving DecidableEq, Repr

/-- What the environment answers during one iteration of the send loop of `main`. -/
structure SendLoopIO where
  /-- the payload returned by `createRandomPayload` -/
  payload : SensorPayload
  /-- the answers to `alertWait`, used when the alert thread runs -/
  alertIO : AlertIO
  /-- the value returned by `sendto` -/
  bytesSent : Int
  /-- the value returned by `pthread_create` for the alert thread; `main` does not
  look at it -/
  threadCreate : Int
  /-- what `pthread_join` does when the alert thread was not created -/
  staleJoin : StaleJoin
  deriving DecidableEq, Repr

/-- How one iteration of the send loop ends. -/
inductive LoopStatus where
  /-- the flag `sending` is still true: the loop runs another iteration -/
  | continues
  /-- the flag `sending` was cleared: the loop ends and `main` returns -/
  | stops
  /-- the process was terminated by `exit(status)` inside `alertWait` -/
  | exited (status : Nat)
  /-- the call `pthread_join` on an indeterminate thread id did not return -/
  | crashed
  deriving DecidableEq, Repr

/-- The sensor record with the port of its address replaced. -/
def withPort (s : Sensor) (port : Nat) : Sensor :=
  { s with addr := { s.addr with sin_port := port } }

/-- One iteration of the send loop of `main` (client.c, lines 50-93) for the sensor
record `s` and the datagram socket `socketFD`. For a payload that raises the
alert, `main` calls `pthread_create` for `alertWait` and `pthread_join` without
looking at the result of `pthread_create` (lines 55-57): when the thread is
created, `alertWait` runs to its end before the join returns; when it is not,
`alertWait` does not run and the join is called on an indeterminate id. The
result is the actions of the iteration, the record `s` after it, and how it
ends. The timestamp of the payload is the current time, which `localtime`
(line 72) can represent. -/
def sendLoopIteration (s : Sensor) (socketFD : Int) (io : SendLoopIO) :
    List ClientEvent × Sensor × LoopStatus :=
  let excursion : List ClientEvent × Option LoopStatus :=
    if alert io.payload then
      if io.threadCreate = 0 then
        (ClientEvent.puts "ALERT" :: (alertWait (withPort s (htons ALERT_PORT)) io.alertIO).1,
          match (alertWait (withPort s (htons ALERT_PORT)) io.alertIO).2 with
          | Outcome.returned => none
          | Outcome.exited status => some (LoopStatus.exited status))
      else
        ([ClientEvent.puts "ALERT"],
          match io.staleJoin with
          | StaleJoin.returns => none
          | StaleJoin.neverReturns => some LoopStatus.crashed)
    else
      ([], none)
  match excursion.2 with
  | some status =>
    (excursion.1, withPort s (htons ALERT_PORT), status)
  | none =>
    let s1 : Sensor := if alert io.payload then withPort s (htons SEND_PORT) else s
    (excursion.1
      ++ [ClientEvent.printed "Sending data: ",
          ClientEvent.sentPayload socketFD io.payload SIZEOF_SENSOR_PAYLOAD s1.addr,
          ClientEvent.printedPayload s1.id io.payload]
      ++ (if io.bytesSent = -1 then [ClientEvent.perror "Sending failed"]
          else if io.bytesSent ≠ (SIZEOF_SENSOR_PAYLOAD : Int) then
            [ClientEvent.perror "Partial message sent"]
          else [])
      ++ [ClientEvent.slept TICK],
      s1,
      if io.bytesSent = -1 ∨ io.bytesSent ≠ (SIZEOF_SENSOR_PAYLOAD : Int) then LoopStatus.stops
      else LoopStatus.continues)

/-! ## server.c: the registry of active sensors -/

/-- The number of values of a `size_t` (64-bit). -/
def SIZE_T_MODULUS : Nat := 2 ^ 64

/-- The type `typedef struct ActiveSensorsTag { const Sensor* sensors[MAX_SENSORS];
size_t currentActive; pthread_mutex_t mutex; } ActiveSensors;`
The array is the list `sensors`, of length `MAX_SENSORS` in every state of the
program; the mutex serialises the calls and carries no data. -/
structure ActiveSensors where
  sensors : List (Option Sensor)
  currentActive : Nat
  deriving DecidableEq, Repr

/-- The function `void initList()` (server.c, lines 75-84), when `pthread_mutex_init` succeeds:
the count is zero and every one of the `MAX_SENSORS` slots is `NULL`. -/
def initList : ActiveSensors :=
  { sensors := List.replicate MAX_SENSORS none, currentActive := 0 }

/-- The `for` loop of `addToList` (server.c, lines 143-149), with `remaining`
iterations left and loop variable `i`: the first `NULL` slot met receives
`newSensor`, the count is incremented and the loop is left (`break`). -/
def addToListScan (newSensor : Option Sensor) : Nat → Nat → ActiveSensors → ActiveSensors
  | 0, _, l => l
  | remaining + 1, i, l =>
    if l.sensors[i]? = some none then
      { sensors := l.sensors.set i newSensor,
        currentActive := (l.currentActive + 1) % SIZE_T_MODULUS }
    else
      addToListScan newSensor remaining (i + 1) l

/-- The function `bool addToList(const Sensor* newSensor)` (server.c, lines 137-152): the
returned flag and the registry after the call. -/
def addToList (l : ActiveSensors) (newSensor : Option Sensor) : Bool × ActiveSensors :=
  if l.currentActive = MAX_SENSORS then
    (false, l)
  else
    (true, addToListScan newSensor MAX_SENSORS 0 l)

/-- The registry after a sequence of `addToList` calls, one per pointer of `ps`. -/
def addAll (l : ActiveSensors) (ps : List (Option Sensor)) : ActiveSensors :=
  ps.foldl (fun st p => (addToList st p).2) l

/-- The number of non-empty (non-`NULL`) slots of the registry. -/
def nonEmptySlots (l : ActiveSensors) : Nat :=
  l.sensors.countP Option.isSome

/-- The registry invariant of the spec: the array has its `MAX_SENSORS` slots and
the active count is the number of non-empty slots. -/
def RegistryInv (l : ActiveSensors) : Prop :=
  l.sensors.length = MAX_SENSORS ∧ l.currentActive = nonEmptySlots l

instance (l : ActiveSensors) : Decidable (RegistryInv l) := by
  unfold RegistryInv; infer_instance

/-- Slot `i` of the registry is empty (`sensors[i] == NULL`). -/
def SlotEmpty (l : ActiveSensors) (i : Nat) : Prop :=
  l.sensors[i]? = some none

instance (l : ActiveSensors) (i : Nat) : Decidable (SlotEmpty l i) := by
  unfold SlotEmpty; infer_instance

/-! ## server.c: the alert/reactivation coordinator -/

/-- The type `typedef struct ReactivationSensorInfoTag { SensorAlert alert; int sensorSocketFD; }
ReactivationSensorInfo;` -/
structure ReactivationSensorInfo where
  alert : SensorAlert
  sensorSocketFD : Int
  deriving DecidableEq, Repr

/-- The observable actions of the server, in program order. -/
inductive ServerEvent where
  /-- a call `perror(msg)` -/
  | perror (msg : String)
  /-- a call `fprintf(stderr, ...)`, named by the start of its format string -/
  | stderr (msg : String)
  /-- a call `printf` of a message about the sensor with this id -/
  | printed (msg : String) (id : Nat)
  /-- a call `printf(PAYLOAD_FORMAT_SPECIFIER, id, time, temperature, humidity, airQuality)` -/
  | printedPayload (id : Nat) (payload : SensorPayload)
  /-- a call `sleep(secs)` -/
  | slept (secs : Nat)
  /-- a call `send(fd, &msg, len, 0)` -/
  | sent (fd : Int) (msg : SensorAlert) (len : Nat)
  /-- a call `close(fd)` -/
  | closed (fd : Int)
  /-- a call `free(...)` of the record the worker or the iteration owns -/
  | freed
  deriving DecidableEq, Repr

/-- The routine `void* rebootSensor(void* arg)` (server.c, lines 298-318); `bytesSent` is the
value returned by `send`. -/
def rebootSensor (info : ReactivationSensorInfo) (bytesSent : Int) : List ServerEvent :=
  [ ServerEvent.printed "Sensor reactivation..." info.alert.sensor.id,
    ServerEvent.slept SENSOR_REACTIVATE_TIME,
    ServerEvent.printed "Sensor reactivated" info.alert.sensor.id,
    ServerEvent.sent info.sensorSocketFD { info.alert with type := REACTIVATE }
      SIZEOF_SENSOR_ALERT ]
  ++ (if bytesSent ≤ 0 then [ServerEvent.perror "Send failed"] else [])
  ++ (if bytesSent ≠ (SIZEOF_SENSOR_ALERT : Int) then [ServerEvent.stderr "Sent only"] else [])
  ++ [ServerEvent.closed info.sensorSocketFD, ServerEvent.freed]

/-- What the environment answers during one iteration of `handleErrors`. -/
structure AlertConnIO where
  /-- the value returned by `accept` -/
  clientFD : Int
  /-- the value returned by `recv` -/
  bytesReceived : Int
  /-- the contents of `alertMsg` after `recv` -/
  alertMsg : SensorAlert
  /-- whether `malloc` returned a non-null pointer -/
  mallocOk : Bool
  /-- the value returned by `pthread_create` -/
  threadCreate : Int
  deriving DecidableEq, Repr

/-- One iteration of the loop of `handleErrors` (server.c, lines 246-295): the
actions of the iteration and, when `pthread_create` started a `rebootSensor`
worker, the argument it was started with. -/
def handleErrorsIteration (io : AlertConnIO) :
    List ServerEvent × Option ReactivationSensorInfo :=
  if io.clientFD < 0 then
    ([ServerEvent.perror "Accept failed"], none)
  else if io.bytesReceived ≤ 0 then
    ([ServerEvent.perror "Connection failed"], none)
  else if io.bytesReceived ≠ (SIZEOF_SENSOR_ALERT : Int) then
    ([ServerEvent.stderr "Received only", ServerEvent.closed io.clientFD], none)
  else if io.alertMsg.type = ALERT then
    if ¬ io.mallocOk then
      ([ServerEvent.printed "Alert received from" io.alertMsg.sensor.id,
        ServerEvent.perror "Memory allocation failed",
        ServerEvent.closed io.clientFD], none)
    else if io.threadCreate = 0 then
      ([ServerEvent.printed "Alert received from" io.alertMsg.sensor.id],
        some { alert := io.alertMsg, sensorSocketFD := io.clientFD })
    else
      ([ServerEvent.printed "Alert received from" io.alertMsg.sensor.id,
        ServerEvent.perror "Thread creation failed",
        ServerEvent.closed io.clientFD,
        ServerEvent.freed], none)
  else
    ([], none)

/-- Everything the server does for one alert connection: the iteration of
`handleErrors` that accepts it, followed by the run of the worker it started, if
any (`bytesSent` is what the worker's `send` returns). -/
def alertConnection (io : AlertConnIO) (bytesSent : Int) : List ServerEvent :=
  match handleErrorsIteration io with
  | (events, some info) => events ++ rebootSensor info bytesSent
  | (events, none) => events

/-- The event is a `send`. -/
def ServerEvent.isSent : ServerEvent → Bool
  | ServerEvent.sent _ _ _ => true
  | _ => false

/-! ## server.c: telemetry ingest -/

/-- One datagram delivered to the telemetry socket. -/
structure Datagram where
  /-- the source address of the datagram -/
  src : SockAddrIn
  /-- the length of the datagram, in bytes -/
  length : Nat
  /-- the `SensorPayload` that the first `sizeof(SensorPayload)` bytes encode -/
  payload : SensorPayload
  deriving DecidableEq, Repr

/-- The outcome of one `recvfrom` on the telemetry socket. -/
inductive RecvFromResult where
  /-- the call failed -/
  | error
  /-- a datagram was delivered -/
  | datagram (d : Datagram)
  deriving DecidableEq, Repr

/-- The value returned by `recvfrom(fd, buf, len, 0, ...)` on a datagram socket
(POSIX): `-1` on failure, otherwise the number of bytes stored in the buffer;
the bytes of a datagram that do not fit in `len` are discarded. -/
def recvfromReturn (r : RecvFromResult) (len : Nat) : Int :=
  match r with
  | RecvFromResult.error => -1
  | RecvFromResult.datagram d => (min d.length len : Nat)

/-- The worker's sensor record when `recvfrom` returns (server.c, lines 214-221):
the call is handed `&sensor->addr` as the buffer for the source address, so a
datagram that is delivered leaves its source in the `addr` field; a failed call
writes nothing. -/
def recvfromRecord (sensor : Sensor) (r : RecvFromResult) : Sensor :=
  match r with
  | RecvFromResult.error => sensor
  | RecvFromResult.datagram d => { sensor with addr := d.src }

/-- How the worker stands after one iteration of the loop of `handleSensor`. -/
inductive WorkerStatus where
  /-- the loop goes on with the next `recvfrom` -/
  | running
  /-- the call `strftime` was handed the `NULL` pointer returned by `localtime`:
  undefined behaviour, in practice a segmentation fault; nothing more is done -/
  | crashed
  deriving DecidableEq, Repr

/-- One iteration of the loop of `handleSensor` (server.c, lines 212-239): the
worker's sensor record after the `recvfrom`, what the iteration prints and how
the worker stands. The buffer passed to `recvfrom` has `sizeof(SensorPayload)`
bytes. The library function `localtime` is a parameter: `representable t` tells
whether `localtime` returns a non-`NULL` pointer for the timestamp `t`; its
result is passed unchecked to `strftime` (lines 228-229). -/
def handleSensorStep (representable : Int → Bool) (sensor : Sensor) (r : RecvFromResult) :
    Sensor × List ServerEvent × WorkerStatus :=
  let bytesReceived := recvfromReturn r SIZEOF_SENSOR_PAYLOAD
  let sensor1 : Sensor := recvfromRecord sensor r
  match r with
  | RecvFromResult.error => (sensor1, [], WorkerStatus.running)
  | RecvFromResult.datagram d =>
    if bytesReceived ≠ (SIZEOF_SENSOR_PAYLOAD : Int) then
      (sensor1, [], WorkerStatus.running)
    else if representable d.payload.timestamp then
      (sensor1, [ServerEvent.printedPayload sensor1.id d.payload], WorkerStatus.running)
    else
      (sensor1, [], WorkerStatus.crashed)

/-- The loop of `handleSensor` run on the successive outcomes of `recvfrom`: what
the worker prints. After an iteration that crashed, nothing more is received or
printed. -/
def handleSensor (representable : Int → Bool) (sensor : Sensor) :
    List RecvFromResult → List ServerEvent
  | [] => []
  | r :: rest =>
    match (handleSensorStep representable sensor r).2.2 with
    | WorkerStatus.running =>
      (handleSensorStep representable sensor r).2.1
        ++ handleSensor representable (handleSensorStep representable sensor r).1 rest
    | WorkerStatus.crashed => (handleSensorStep representable sensor r).2.1

/-! ## server.c: registration -/

/-- What the environment answers during one iteration of `handleNewConnections`. -/
structure RegistrationIO where
  /-- the value returned by `accept` -/
  clientFD : Int
  /-- the source address stored by `accept` in `sensorAddr` -/
  sensorAddr : SockAddrIn
  /-- whether `malloc` returned a non-null pointer -/
  mallocOk : Bool
  /-- the value returned by `recv` -/
  n : Int
  /-- the contents of `*newSensor` after `recv` -/
  received : Sensor
  /-- the value returned by `pthread_create` -/
  threadCreate : Int
  deriving DecidableEq, Repr

/-- One iteration of the loop of `handleNewConnections` (server.c, lines 155-204):
the registry after the iteration, the actions of the iteration and, when
`pthread_create` started a `handleSensor` worker, the record it was started with. -/
def handleNewConnectionsIteration (l : ActiveSensors) (io : RegistrationIO) :
    ActiveSensors × List ServerEvent × Option Sensor :=
  if io.clientFD < 0 then
    (l, [ServerEvent.perror "Accept failed"], none)
  else if ¬ io.mallocOk then
    (l, [ServerEvent.perror "Memory allocation failed", ServerEvent.closed io.clientFD], none)
  else if io.n ≤ 0 then
    (l, [ServerEvent.perror "Received failed", ServerEvent.closed io.clientFD], none)
  else if io.n ≠ (SIZEOF_SENSOR : Int) then
    (l, [ServerEvent.stderr "Expected", ServerEvent.freed, ServerEvent.closed io.clientFD], none)
  else
    let newSensor : Sensor := { io.received with addr := io.sensorAddr }
    let added := addToList l (some newSensor)
    if ¬ added.1 then
      (added.2, [ServerEvent.stderr "Adding sensor failed", ServerEvent.closed io.clientFD], none)
    else if io.threadCreate = 0 then
      (added.2, [], some newSensor)
    else
      (added.2, [ServerEvent.perror "Thread creation failed", ServerEvent.closed io.clientFD],
        none)

/-! ## client.c: the send loop as a whole -/

/-- The event is a `sendto`, the transmission of a telemetry datagram. -/
def ClientEvent.isSentPayload : ClientEvent → Bool
  | ClientEvent.sentPayload _ _ _ _ => true
  | _ => false

/-- How the run of `main` stands after the send loop has consumed the answers of
the environment it was given. -/
inductive MainOutcome where
  /-- the flag `sending` is still true: the loop would run another iteration -/
  | running
  /-- the loop ended and `main` returned: the process has terminated -/
  | finished
  /-- the process was terminated by `exit(status)` inside `alertWait` -/
  | exited (status : Nat)
  /-- the call `pthread_join` on an indeterminate thread id did not return -/
  | crashed
  deriving DecidableEq, Repr

/-- The loop `while(sending)` of `main` (client.c, lines 49-93), run on the answers
of the environment for its successive iterations: the actions performed and how
the run stands. After an iteration that cleared `sending`, called `exit` or did
not come back from `pthread_join`, no further iteration runs. -/
def sendLoop (s : Sensor) (socketFD : Int) : List SendLoopIO → List ClientEvent × MainOutcome
  | [] => ([], MainOutcome.running)
  | io :: rest =>
    match (sendLoopIteration s socketFD io).2.2 with
    | LoopStatus.continues =>
      ((sendLoopIteration s socketFD io).1
          ++ (sendLoop (sendLoopIteration s socketFD io).2.1 socketFD rest).1,
        (sendLoop (sendLoopIteration s socketFD io).2.1 socketFD rest).2)
    | LoopStatus.stops => ((sendLoopIteration s socketFD io).1, MainOutcome.finished)
    | LoopStatus.exited status =>
      ((sendLoopIteration s socketFD io).1, MainOutcome.exited status)
    | LoopStatus.crashed => ((sendLoopIteration s socketFD io).1, MainOutcome.crashed)

/-! ## server.c: time spent by the coordinator -/

/-- The seconds that have certainly elapsed when a sequence of server actions is
over: every `sleep(secs)` lasts `secs` seconds (no signal handler is installed
that could cut it short) and every other action takes no less than zero. -/
def elapsedSeconds : List ServerEvent → Nat
  | [] => 0
  | ServerEvent.slept secs :: rest => secs + elapsedSeconds rest
  | _ :: rest => elapsedSeconds rest

/-- The worker's sensor record after the calls to `recvfrom` whose outcomes are
listed have been performed by the loop of `handleSensor` (the record `sensor`
points to, which is also the record the registry slot points to:
`handleNewConnections` hands the same pointer `newSensor` to `addToList` and to
`pthread_create`). -/
def handleSensorRecord (sensor : Sensor) : List RecvFromResult → Sensor
  | [] => sensor
  | r :: rest => handleSensorRecord (recvfromRecord sensor r) rest

end SensorV2

/-! # MessagingApp: the client list of the chat relay

The list operations of `src/MessagingApp/server.c`. The array
`ClientInfo* clients[MAX_CLIENTS]` is a list of optional records (`none` is
`NULL`); an access outside the array and the dereference of a `NULL` slot have
no defined result, so the operations that can perform one return an `Option`. -/

namespace MessagingApp

/-- The macro `#define MAX_CLIENTS 10`. -/
def MAX_CLIENTS : Nat := 10

/-- The type `typedef struct ClientInfoTag { int socketFD; struct sockaddr_in address; }
ClientInfo;` -/
structure ClientInfo where
  socketFD : Int
  address : SensorV2.SockAddrIn
  deriving DecidableEq, Repr

/-- The type `typedef struct ClientListTag { ClientInfo* clients[MAX_CLIENTS];
size_t active; pthread_mutex_t mutex; } ClientList;` -/
structure ClientList where
  clients : List (Option ClientInfo)
  active : Nat
  deriving DecidableEq, Repr

/-- The function `void initClientList()` (server.c, lines 105-114), when
`pthread_mutex_init` succeeds. -/
def initClientList : ClientList :=
  { clients := List.replicate MAX_CLIENTS none, active := 0 }

/-- The insertion of `handleClient` (server.c, lines 145-157) for the record `info`
the thread was started with: whether the client was admitted, and the list
after the step. -/
def handleClientInsert (l : ClientList) (info : ClientInfo) : Bool × ClientList :=
  if l.active < MAX_CLIENTS then
    (true, { clients := l.clients.set l.active (some info),
             active := (l.active + 1) % SensorV2.SIZE_T_MODULUS })
  else
    (false, l)

/-- The inner loop `for(size_t j = i; j < clients.active - 1; j++)
clients.clients[j] = clients.clients[j + 1];` (server.c, lines 192-193) with
`remaining` iterations left and loop variable `j`. -/
def shiftLeft : Nat → Nat → List (Option ClientInfo) → Option (List (Option ClientInfo))
  | 0, _, cs => some cs
  | remaining + 1, j, cs =>
    match cs[j + 1]? with
    | none => none
    | some next => shiftLeft remaining (j + 1) (cs.set j next)

/-- The body run when the scan of `handleClient` meets the departing socket at
index `i` (server.c, lines 190-198): the left shift of the entries after `i`,
`clients.clients[clients.active - 1] = NULL` and `clients.active--`. -/
def eraseAt (l : ClientList) (i : Nat) : Option ClientList :=
  match shiftLeft (l.active - 1 - i) i l.clients with
  | none => none
  | some cs =>
    if l.active - 1 < cs.length then
      some { clients := cs.set (l.active - 1) none, active := l.active - 1 }
    else none

/-- The scan `for(size_t i = 0; i < clients.active && removing; i++)` of
`handleClient` (server.c, lines 188-200) with `remaining` iterations left and
loop variable `i`; `clientSocket` is the departing socket. -/
def removeScan (clientSocket : Int) : Nat → Nat → ClientList → Option ClientList
  | 0, _, l => some l
  | remaining + 1, i, l =>
    match l.clients[i]? with
    | none => none
    | some none => none
    | some (some c) =>
      if c.socketFD = clientSocket then eraseAt l i
      else removeScan clientSocket remaining (i + 1) l

/-- The removal step of `handleClient` (server.c, lines 186-201) for the departing
socket `clientSocket`. -/
def handleClientRemoval (l : ClientList) (clientSocket : Int) : Option ClientList :=
  removeScan clientSocket l.active 0 l

/-- The first `active` slots of the client list are non-empty. -/
def Packed (l : ClientList) : Prop :=
  ∀ i, i < l.active → ∃ c, l.clients[i]? = some (some c)

/-- A client record with the given socket. -/
def clientOn (fd : Int) : ClientInfo :=
  { socketFD := fd, address := { sin_family := 2, sin_port := 36895, sin_addr := 16777343 } }

/-- A client list holding the sockets 4, 5, 6 and 7. -/
def fourClients : ClientList :=
  { clients := [some (clientOn 4), some (clientOn 5), some (clientOn 6), some (clientOn 7),
                none, none, none, none, none, none],
    active := 4 }

end MessagingApp

/-! # Sensori: the sensor list of the single-metric server

The list operations of `src/Sensori/server.c`, under the same conventions. -/

namespace Sensori

/-- The macro `#define MAX_SENSORS 10`. -/
def MAX_SENSORS : Nat := 10

/-- The type `typedef struct SensorInfoTag { int sensorFD; struct sockaddr_in address;
SensorPayload payload; } SensorInfo;` without its receive buffer `payload`, which
the list operations never read. -/
structure SensorInfo where
  sensorFD : Int
  address : SensorV2.SockAddrIn
  deriving DecidableEq, Repr

/-- The type `typedef struct SensorInfoListTag { SensorInfo* sensors[MAX_SENSORS];
size_t active; pthread_mutex_t mutex; } SensorInfoList;` -/
structure SensorInfoList where
  sensors : List (Option SensorInfo)
  active : Nat
  deriving DecidableEq, Repr

/-- The function `void initList()` (server.c, lines 89-99), when `pthread_mutex_init`
succeeds. -/
def initList : SensorInfoList :=
  { sensors := List.replicate MAX_SENSORS none, active := 0 }

/-- The insertion of `handleSensor` (server.c, lines 138-149) for the record
`sensor` the thread was started with: whether the sensor was admitted, and the
list after the step. -/
def handleSensorInsert (l : SensorInfoList) (sensor : SensorInfo) : Bool × SensorInfoList :=
  if l.active < MAX_SENSORS then
    (true, { sensors := l.sensors.set l.active (some sensor),
             active := (l.active + 1) % SensorV2.SIZE_T_MODULUS })
  else
    (false, l)

/-- The removal of `handleSensor` (server.c, lines 178-181):
`list.sensors[list.active] = NULL; list.active--;`. The index written is
`list.active`; when it is not an index of the `MAX_SENSORS`-slot array the write
is out of bounds and the step has no defined result. -/
def handleSensorRemoval (l : SensorInfoList) : Option SensorInfoList :=
  if l.active < MAX_SENSORS then
    some { sensors := l.sensors.set l.active none,
           active := (l.active + SensorV2.SIZE_T_MODULUS - 1) % SensorV2.SIZE_T_MODULUS }
  else
    none

/-- The invariant of the spec on the sensor list: the array has its `MAX_SENSORS`
slots and the active count is the number of non-empty slots. -/
def ListInv (l : SensorInfoList) : Prop :=
  l.sensors.length = MAX_SENSORS ∧ l.active = l.sensors.countP Option.isSome

instance (l : SensorInfoList) : Decidable (ListInv l) := by
  unfold ListInv; infer_instance

/-- A sensor record with the given socket. -/
def sensorOn (fd : Int) : SensorInfo :=
  { sensorFD := fd, address := { sin_family := 2, sin_port := 36895, sin_addr := 16777343 } }

/-- A sensor list with nine sensors connected, on the sockets 4 to 12. -/
def nineSensors : SensorInfoList :=
  { sensors := [some (sensorOn 4), some (sensorOn 5), some (sensorOn 6), some (sensorOn 7),
                some (sensorOn 8), some (sensorOn 9), some (sensorOn 10), some (sensorOn 11),
                some (sensorOn 12), none],
    active := 9 }

/-- The sensor list after the sensors of `connecting` have connected one after the
other, each running the insertion of `handleSensor`, with no disconnection. -/
def connectAll (l : SensorInfoList) (connecting : List SensorInfo) : SensorInfoList :=
  connecting.foldl (fun st sensor => (handleSensorInsert st sensor).2) l

/-- Ten sensors, on the sockets 4 to 13. -/
def tenSensors : List SensorInfo :=
  [sensorOn 4, sensorOn 5, sensorOn 6, sensorOn 7, sensorOn 8, sensorOn 9, sensorOn 10,
   sensorOn 11, sensorOn 12, sensorOn 13]

end Sensori

namespace SensorV2

/-! ## Sample inputs -/

/-- The payload of the spec's example: temperature 55, humidity 10, air quality
50, with any timestamp. -/
def breachPayload (ts : Int) : SensorPayload :=
  { timestamp := ts, temperature := 55, humidity := 10, airQuality := 50 }

/-- A datagram of 12 bytes, one more than `sizeof(SensorPayload)`. -/
def longDatagram : Datagram :=
  { src := { sin_family := 2, sin_port := 5050, sin_addr := 16777343 },
    length := 12,
    payload := breachPayload 0 }

/-- The answers of a registration that succeeds: a full-size record declaring one
endpoint, accepted from another one. -/
def sampleRegistration : RegistrationIO :=
  { clientFD := 5,
    sensorAddr := { sin_family := 2, sin_port := 40000, sin_addr := 33554559 },
    mallocOk := true,
    n := 17,
    received := { id := 9, addr := { sin_family := 2, sin_port := 4040, sin_addr := 16777343 } },
    threadCreate := 0 }

/-- The answers of a registration whose record is read in full but whose worker
thread cannot be created (`pthread_create` returns `EAGAIN`, 11). -/
def threadFailRegistration : RegistrationIO :=
  { clientFD := 5,
    sensorAddr := { sin_family := 2, sin_port := 40000, sin_addr := 33554559 },
    mallocOk := true,
    n := 17,
    received := { id := 9, addr := { sin_family := 2, sin_port := 4040, sin_addr := 16777343 } },
    threadCreate := 11 }

/-- The answers of an alert rendezvous whose full-size reply carries the type
value 7, which is neither `ALERT` nor `REACTIVATE`. -/
def oddReplyIO : AlertIO :=
  { socketFD := 4, connectRes := 0, bytesSent := 21, bytesReceived := 21,
    reply := { type := 7, sensor := { id := 7, addr := { sin_family := 2, sin_port := 46103,
                                                         sin_addr := 16777343 } } } }

/-- The answers of an alert rendezvous that completes: full-size transfers and a
reply of type `REACTIVATE`. -/
def reactivateIO : AlertIO :=
  { socketFD := 4, connectRes := 0, bytesSent := 21, bytesReceived := 21,
    reply := { type := 1, sensor := { id := 7, addr := { sin_family := 2, sin_port := 46103,
                                                         sin_addr := 16777343 } } } }

/-- The answers of an iteration that generates the breaching payload (55, 10, 50)
while the alert thread cannot be created (`pthread_create` returns `EAGAIN`,
11) and the join on the indeterminate id returns. -/
def noThreadLoopIO : SendLoopIO :=
  { payload := breachPayload 0, alertIO := reactivateIO, bytesSent := 11,
    threadCreate := 11, staleJoin := StaleJoin.returns }

/-- A `localtime` with the upper limit of a 64-bit glibc in the UTC time zone: it
returns a non-`NULL` pointer for the timestamps up to 67768036191676799, the
last second of the year 2147485547, the largest year whose offset from 1900
fits in the `int` field `tm_year`, and `NULL` beyond. -/
def sampleLocaltime (t : Int) : Bool :=
  decide (t ≤ 67768036191676799)

/-- A telemetry datagram of exactly `sizeof(SensorPayload)` bytes whose timestamp,
2^62, is beyond the years that `localtime` can represent. -/
def farFutureDatagram : Datagram :=
  { src := { sin_family := 2, sin_port := 51000, sin_addr := 33554559 },
    length := 11,
    payload := breachPayload 4611686018427387904 }

/-- A telemetry datagram of exactly `sizeof(SensorPayload)` bytes, sent from the
UDP port 51000 of the host 127.0.0.2. -/
def telemetryDatagram : Datagram :=
  { src := { sin_family := 2, sin_port := 51000, sin_addr := 33554559 },
    length := 11,
    payload := breachPayload 0 }

/-- A datagram of 3 bytes, sent from the UDP port 51000 of the host 127.0.0.2. -/
def shortDatagram : Datagram :=
  { src := { sin_family := 2, sin_port := 51000, sin_addr := 33554559 },
    length := 3,
    payload := breachPayload 0 }

/-- The record that the registration `sampleRegistration` stores: the received id
with the endpoint reported by `accept`. -/
def registeredSensor : Sensor :=
  { id := 9, addr := { sin_family := 2, sin_port := 40000, sin_addr := 33554559 } }

/-- A sample sensor record. -/
def sampleSensor : Sensor :=
  { id := 7, addr := { sin_family := 2, sin_port := 4040, sin_addr := 16777343 } }

/-- A full registry: its 255 slots all hold a sensor and its count is 255. -/
def fullRegistry : ActiveSensors :=
  { sensors := List.replicate MAX_SENSORS (some sampleSensor), currentActive := 255 }

/-- A state outside the registry invariant, which only `initList` and `addToList`
write and which the program therefore never reaches: the 255 slots all hold a
sensor while the count is 254. -/
def fullSlotsRegistry : ActiveSensors :=
  { sensors := List.replicate MAX_SENSORS (some sampleSensor), currentActive := 254 }

/-! ## Theorems -/

/-! ### The scan of `addToList` -/

theorem addToListScan_spec (p : Option Sensor) (n i : Nat) (l : ActiveSensors) :
    (∃ k, i ≤ k ∧ k < i + n ∧ SlotEmpty l k ∧ (∀ j, i ≤ j → j < k → ¬ SlotEmpty l j) ∧
        addToListScan p n i l =
          { sensors := l.sensors.set k p,
            currentActive := (l.currentActive + 1) % SIZE_T_MODULUS }) ∨
      ((∀ j, i ≤ j → j < i + n → ¬ SlotEmpty l j) ∧ addToListScan p n i l = l) := by
  induction n generalizing i with
  | zero =>
    right
    refine ⟨fun j h1 h2 => by omega, rfl⟩
  | succ n ih =>
    by_cases h : l.sensors[i]? = some none
    · left
      refine ⟨i, le_refl _, by omega, h, fun j h1 h2 => by omega, ?_⟩
      simp [addToListScan, h]
    · rcases ih (i + 1) with ⟨k, hk1, hk2, hk3, hk4, hk5⟩ | ⟨hno, heq⟩
      · left
        refine ⟨k, by omega, by omega, hk3, ?_, ?_⟩
        · intro j h1 h2
          by_cases hj : j = i
          · subst hj; exact h
          · exact hk4 j (by omega) h2
        · simp [addToListScan, h, hk5]
      · right
        refine ⟨?_, ?_⟩
        · intro j h1 h2
          by_cases hj : j = i
          · subst hj; exact h
          · exact hno j (by omega) (by omega)
        · simp [addToListScan, h, heq]

theorem exists_empty_of_countP_lt (xs : List (Option Sensor))
    (h : xs.countP Option.isSome < xs.length) :
    ∃ k, k < xs.length ∧ xs[k]? = some none := by
  induction xs with
  | nil => simp at h
  | cons x xs ih =>
    cases x with
    | none => exact ⟨0, by simp, by simp⟩
    | some s =>
      have h2 : xs.countP Option.isSome < xs.length := by
        simpa [List.countP_cons] using h
      obtain ⟨k, hk1, hk2⟩ := ih h2
      exact ⟨k + 1, by simpa using hk1, by simpa using hk2⟩

theorem countP_set_empty (xs : List (Option Sensor)) (k : Nat) (p : Option Sensor)
    (hk : xs[k]? = some none) :
    (xs.set k p).countP Option.isSome =
      xs.countP Option.isSome + (if p.isSome then 1 else 0) := by
  obtain ⟨hlt, hget⟩ := List.getElem?_eq_some_iff.mp hk
  rw [List.countP_set _ _ _ _ hlt, hget]
  simp

theorem not_slotEmpty_of_all (l : ActiveSensors)
    (h : ∀ j, j < MAX_SENSORS → ¬ SlotEmpty l j) (hlen : l.sensors.length = MAX_SENSORS) :
    nonEmptySlots l = MAX_SENSORS := by
  unfold nonEmptySlots
  by_contra hne
  have hle : l.sensors.countP Option.isSome ≤ l.sensors.length := List.countP_le_length _
  obtain ⟨k, hk1, hk2⟩ := exists_empty_of_countP_lt l.sensors (by omega)
  exact h k (by omega) hk2

/-- The loose invariant kept by `addToList` whatever pointer it is given: the
array has its 255 slots, the count is at least the number of non-empty slots and
at most 255. -/
theorem addToList_loose (l : ActiveSensors) (p : Option Sensor)
    (hlen : l.sensors.length = MAX_SENSORS)
    (hcnt : nonEmptySlots l ≤ l.currentActive) (hmax : l.currentActive ≤ MAX_SENSORS) :
    (addToList l p).2.sensors.length = MAX_SENSORS ∧
      nonEmptySlots (addToList l p).2 ≤ (addToList l p).2.currentActive ∧
      (addToList l p).2.currentActive = min (l.currentActive + 1) MAX_SENSORS := by
  unfold addToList
  by_cases hfull : l.currentActive = MAX_SENSORS
  · simp only [hfull, if_true]
    refine ⟨hlen, ?_, by simp⟩
    rw [hfull] at hcnt; exact hcnt
  · simp only [hfull, if_false]
    have hlt : l.currentActive < MAX_SENSORS := lt_of_le_of_ne hmax hfull
    rcases addToListScan_spec p MAX_SENSORS 0 l with ⟨k, _, hk2, hk3, _, hk5⟩ | ⟨hno, _⟩
    · rw [hk5]
      have hmod : (l.currentActive + 1) % SIZE_T_MODULUS = l.currentActive + 1 := by
        apply Nat.mod_eq_of_lt
        unfold MAX_SENSORS at hlt
        unfold SIZE_T_MODULUS
        omega
      refine ⟨by simpa using hlen, ?_, ?_⟩
      · unfold nonEmptySlots at *
        simp only [hmod]
        rw [countP_set_empty _ _ _ hk3]
        split <;> omega
      · simp only [hmod]
        omega
    · exfalso
      have := not_slotEmpty_of_all l (fun j hj => hno j (Nat.zero_le _) (by omega)) hlen
      omega

theorem addAll_loose (ps : List (Option Sensor)) (l : ActiveSensors)
    (hlen : l.sensors.length = MAX_SENSORS)
    (hcnt : nonEmptySlots l ≤ l.currentActive) (hmax : l.currentActive ≤ MAX_SENSORS) :
    (addAll l ps).sensors.length = MAX_SENSORS ∧
      nonEmptySlots (addAll l ps) ≤ (addAll l ps).currentActive ∧
      (addAll l ps).currentActive = min (l.currentActive + ps.length) MAX_SENSORS := by
  induction ps generalizing l with
  | nil => exact ⟨hlen, hcnt, by simp [addAll]; omega⟩
  | cons p ps ih =>
    obtain ⟨h1, h2, h3⟩ := addToList_loose l p hlen hcnt hmax
    have h4 : (addToList l p).2.currentActive ≤ MAX_SENSORS := by rw [h3]; omega
    obtain ⟨g1, g2, g3⟩ := ih (addToList l p).2 h1 h2 h4
    have hstep : addAll l (p :: ps) = addAll (addToList l p).2 ps := rfl
    rw [hstep]
    refine ⟨g1, g2, ?_⟩
    rw [g3, h3]
    simp only [List.length_cons]
    omega

theorem initList_length : initList.sensors.length = MAX_SENSORS := by
  simp [initList]

theorem initList_nonEmpty : nonEmptySlots initList = 0 := by
  simp [nonEmptySlots, initList, List.countP_replicate]

theorem addAll_init_count (ps : List (Option Sensor)) :
    (addAll initList ps).currentActive = min ps.length MAX_SENSORS := by
  have h := (addAll_loose ps initList initList_length
    (by rw [initList_nonEmpty]; exact Nat.zero_le _) (Nat.zero_le _)).2.2
  rw [h]
  simp [initList]

theorem initList_slotEmpty (i : Nat) (hi : i < 255) : SlotEmpty initList i := by
  have hi2 : i < MAX_SENSORS := hi
  show (List.replicate MAX_SENSORS (none : Option Sensor))[i]? = some none
  rw [List.getElem?_replicate, if_pos hi2]

theorem initList_inv : RegistryInv initList :=
  ⟨initList_length, by rw [initList_nonEmpty]; rfl⟩

theorem inv_count_le (l : ActiveSensors) (h : RegistryInv l) :
    l.currentActive ≤ MAX_SENSORS := by
  obtain ⟨h1, h2⟩ := h
  rw [h2, ← h1]
  exact List.countP_le_length _

/-! ### Claims on the registry -/

/-- C2: starting from the registry produced by `initList`, after any sequence `ps`
of `addToList` calls the next call returns true when fewer than 255 calls were
made before it (it is one of the first 255), and returns false and leaves the
registry unchanged when 255 or more calls were made before it; the active count
of every state reached this way is at most 255. -/
theorem addToList_capacity (ps : List (Option Sensor)) (p : Option Sensor) :
    MAX_SENSORS = 255 ∧
    (ps.length < 255 → (addToList (addAll initList ps) p).1 = true) ∧
    (255 ≤ ps.length →
      (addToList (addAll initList ps) p).1 = false ∧
      (addToList (addAll initList ps) p).2 = addAll initList ps) ∧
    (addAll initList ps).currentActive ≤ 255 := by
  have hc := addAll_init_count ps
  refine ⟨rfl, ?_, ?_, ?_⟩
  · intro h
    have hne : (addAll initList ps).currentActive ≠ MAX_SENSORS := by
      rw [hc]; unfold MAX_SENSORS; omega
    simp [addToList, hne]
  · intro h
    have heq : (addAll initList ps).currentActive = MAX_SENSORS := by
      rw [hc]; unfold MAX_SENSORS; omega
    simp [addToList, heq]
  · rw [hc]; unfold MAX_SENSORS; omega

/-- Outside the registry invariant `addToList` decides on the count alone: in the
state whose 255 slots all hold a sensor while its count is 254 (a state the
program never reaches), no slot is empty, yet `addToList` returns true, leaving
the registry unchanged. -/
theorem addToList_full_slots_returns_true :
    (∀ i, i < 255 → ¬ SlotEmpty fullSlotsRegistry i) ∧
    addToList fullSlotsRegistry (some sampleSensor) = (true, fullSlotsRegistry) ∧
    ¬ (∀ (l : ActiveSensors) (p : Option Sensor),
        (l.currentActive = 255 ∨ ∀ i, i < 255 → ¬ SlotEmpty l i) →
          (addToList l p).1 = false ∧ (addToList l p).2 = l) := by
  have hno : ∀ i, i < 255 → ¬ SlotEmpty fullSlotsRegistry i := by
    intro i hi
    have hi2 : i < MAX_SENSORS := hi
    show ¬ ((List.replicate MAX_SENSORS (some sampleSensor))[i]? = some none)
    rw [List.getElem?_replicate, if_pos hi2]
    simp
  have hrun : addToList fullSlotsRegistry (some sampleSensor) = (true, fullSlotsRegistry) := by
    have hscan : addToListScan (some sampleSensor) MAX_SENSORS 0 fullSlotsRegistry
        = fullSlotsRegistry := by
      rcases addToListScan_spec (some sampleSensor) MAX_SENSORS 0 fullSlotsRegistry with
        ⟨k, _, hk2, hk3, _, _⟩ | ⟨_, heq⟩
      · exact absurd hk3 (hno k (by unfold MAX_SENSORS at hk2; omega))
      · exact heq
    have hne : fullSlotsRegistry.currentActive ≠ MAX_SENSORS := by decide
    unfold addToList
    rw [if_neg hne, hscan]
  refine ⟨hno, hrun, ?_⟩
  intro hall
  have h := (hall fullSlotsRegistry (some sampleSensor) (Or.inr hno)).1
  rw [hrun] at h
  exact Bool.noConfusion h

/-- For every registry state whatsoever, if the active count equals 255 then
`addToList` returns false and leaves the slots and the count unchanged; if no
slot is empty then `addToList` leaves the slots and the count unchanged, and it
returns false when the state moreover satisfies the registry invariant (255
slots, count equal to the number of non-empty slots). -/
theorem addToList_rejects (l : ActiveSensors) (p : Option Sensor) :
    (l.currentActive = 255 → (addToList l p).1 = false ∧ (addToList l p).2 = l) ∧
    ((∀ i, i < 255 → ¬ SlotEmpty l i) → (addToList l p).2 = l) ∧
    (RegistryInv l → (∀ i, i < 255 → ¬ SlotEmpty l i) → (addToList l p).1 = false) := by
  have hscan : (∀ i, i < 255 → ¬ SlotEmpty l i) → addToListScan p MAX_SENSORS 0 l = l := by
    intro hno
    rcases addToListScan_spec p MAX_SENSORS 0 l with ⟨k, _, hk2, hk3, _, _⟩ | ⟨_, heq⟩
    · exact absurd hk3 (hno k (by unfold MAX_SENSORS at hk2; omega))
    · exact heq
  refine ⟨?_, ?_, ?_⟩
  · intro h
    have h2 : l.currentActive = MAX_SENSORS := h
    simp [addToList, h2]
  · intro hno
    unfold addToList
    split
    · rfl
    · simp [hscan hno]
  · intro hinv hno
    have hfull : nonEmptySlots l = MAX_SENSORS :=
      not_slotEmpty_of_all l (fun j hj => hno j hj) hinv.1
    have h2 : l.currentActive = MAX_SENSORS := by rw [hinv.2, hfull]
    simp [addToList, h2]

theorem fullRegistry_inv : RegistryInv fullRegistry := by
  refine ⟨?_, ?_⟩
  · show (List.replicate MAX_SENSORS (some sampleSensor)).length = MAX_SENSORS
    exact List.length_replicate _ _
  · show 255 = (List.replicate MAX_SENSORS (some sampleSensor)).countP Option.isSome
    rw [List.countP_replicate]
    rfl

theorem fullRegistry_noEmpty : ∀ i, i < 255 → ¬ SlotEmpty fullRegistry i := by
  intro i hi
  have hi2 : i < MAX_SENSORS := hi
  show ¬ ((List.replicate MAX_SENSORS (some sampleSensor))[i]? = some none)
  rw [List.getElem?_replicate, if_pos hi2]
  simp

/-- C3: for every registry state the program can be in, that is every state
satisfying the registry invariant (255 slots, active count equal to the number
of non-empty slots) and every state reached from `initList` by a sequence of
`addToList` calls, if the active count equals the capacity 255 or no slot is
empty, `addToList` returns false and leaves the slots and the active count
unchanged. -/
theorem addToList_fails_when_full (l : ActiveSensors) (p : Option Sensor)
    (hstate : RegistryInv l ∨ ∃ ps, l = addAll initList ps)
    (hfull : l.currentActive = 255 ∨ ∀ i, i < 255 → ¬ SlotEmpty l i) :
    (addToList l p).1 = false ∧ (addToList l p).2 = l := by
  have hloose : l.sensors.length = MAX_SENSORS ∧ nonEmptySlots l ≤ l.currentActive ∧
      l.currentActive ≤ MAX_SENSORS := by
    rcases hstate with hinv | ⟨ps, hps⟩
    · exact ⟨hinv.1, by rw [hinv.2], inv_count_le l hinv⟩
    · obtain ⟨h1, h2, h3⟩ := addAll_loose ps initList initList_length
        (by rw [initList_nonEmpty]; exact Nat.zero_le _) (Nat.zero_le _)
      rw [hps]
      exact ⟨h1, h2, by rw [h3]; omega⟩
  obtain ⟨hlen, hcnt, hmax⟩ := hloose
  have hcount : l.currentActive = MAX_SENSORS := by
    rcases hfull with h | hno
    · exact h
    · have hall := not_slotEmpty_of_all l (fun j hj => hno j hj) hlen
      omega
  simp [addToList, hcount]

/-- Witness for C3: the full registry satisfies the invariant and has no empty
slot; registering one more sensor fails and changes nothing. -/
theorem addToList_fails_when_full_witness :
    RegistryInv fullRegistry ∧ (∀ i, i < 255 → ¬ SlotEmpty fullRegistry i) ∧
    (addToList fullRegistry (some sampleSensor)).1 = false ∧
    (addToList fullRegistry (some sampleSensor)).2 = fullRegistry :=
  ⟨fullRegistry_inv, fullRegistry_noEmpty,
    addToList_fails_when_full fullRegistry (some sampleSensor) (Or.inl fullRegistry_inv)
      (Or.inr fullRegistry_noEmpty)⟩

/-- C4: the invariant "active count == number of non-empty slots" (over the 255
slots of the array) holds in the state produced by `initList`, and every
`addToList` call that registers a sensor record preserves it, whether the call
stores the record (returns true) or finds the registry full (returns false). -/
theorem registry_invariant :
    RegistryInv initList ∧
    ∀ (l : ActiveSensors) (s : Sensor),
      RegistryInv l → RegistryInv (addToList l (some s)).2 := by
  refine ⟨initList_inv, ?_⟩
  intro l s hinv
  have hmax := inv_count_le l hinv
  obtain ⟨hlen, hcnt⟩ := hinv
  unfold addToList
  by_cases hfull : l.currentActive = MAX_SENSORS
  · simp only [hfull, if_true]
    exact ⟨hlen, hcnt⟩
  · simp only [hfull, if_false]
    have hlt : l.currentActive < MAX_SENSORS := lt_of_le_of_ne hmax hfull
    rcases addToListScan_spec (some s) MAX_SENSORS 0 l with
      ⟨k, _, _, hk3, _, hk5⟩ | ⟨hno, _⟩
    · rw [hk5]
      have hmod : (l.currentActive + 1) % SIZE_T_MODULUS = l.currentActive + 1 := by
        apply Nat.mod_eq_of_lt
        unfold MAX_SENSORS at hlt
        unfold SIZE_T_MODULUS
        omega
      refine ⟨by simpa using hlen, ?_⟩
      unfold nonEmptySlots at *
      simp only [hmod]
      rw [countP_set_empty _ _ _ hk3, hcnt]
      simp
    · exfalso
      have := not_slotEmpty_of_all l (fun j hj => hno j (Nat.zero_le _) (by omega)) hlen
      omega

theorem addToListScan_finds (l : ActiveSensors) (p : Option Sensor)
    (hempty : ∃ i, i < 255 ∧ SlotEmpty l i) :
    ∃ k, k < 255 ∧ SlotEmpty l k ∧ (∀ j, j < k → ¬ SlotEmpty l j) ∧
      addToListScan p MAX_SENSORS 0 l =
        { sensors := l.sensors.set k p,
          currentActive := (l.currentActive + 1) % SIZE_T_MODULUS } := by
  rcases addToListScan_spec p MAX_SENSORS 0 l with ⟨k, _, hk2, hk3, hk4, hk5⟩ | ⟨hno, _⟩
  · exact ⟨k, by unfold MAX_SENSORS at hk2; omega, hk3,
      fun j hj => hk4 j (Nat.zero_le _) hj, hk5⟩
  · obtain ⟨i, hi, hie⟩ := hempty
    exact absurd hie (hno i (Nat.zero_le _) (by unfold MAX_SENSORS; omega))

/-- C5: for every registry state whose active count is below 255 and that has an
empty slot among its 255 slots, `addToList` stores the new sensor pointer in the
lowest-index empty slot `k`, leaves every other slot (and the number of slots)
unchanged, increments the active count by exactly one and returns true. -/
theorem addToList_first_empty (l : ActiveSensors) (p : Option Sensor)
    (hcount : l.currentActive < 255) (hempty : ∃ i, i < 255 ∧ SlotEmpty l i) :
    ∃ k, k < 255 ∧ SlotEmpty l k ∧ (∀ j, j < k → ¬ SlotEmpty l j) ∧
      (addToList l p).2.sensors[k]? = some p ∧
      (∀ j, j ≠ k → (addToList l p).2.sensors[j]? = l.sensors[j]?) ∧
      (addToList l p).2.sensors.length = l.sensors.length ∧
      (addToList l p).2.currentActive = l.currentActive + 1 ∧
      (addToList l p).1 = true := by
  have hne : l.currentActive ≠ MAX_SENSORS := by unfold MAX_SENSORS; omega
  have hmod : (l.currentActive + 1) % SIZE_T_MODULUS = l.currentActive + 1 := by
    apply Nat.mod_eq_of_lt
    unfold SIZE_T_MODULUS
    omega
  obtain ⟨k, hk1, hk3, hk4, hk5⟩ := addToListScan_finds l p hempty
  have hk : k < l.sensors.length := (List.getElem?_eq_some_iff.mp hk3).1
  refine ⟨k, hk1, hk3, hk4, ?_, ?_, ?_, ?_, ?_⟩
  · simp [addToList, hne, hk5, hk]
  · intro j hj
    simp [addToList, hne, hk5, List.getElem?_set_ne (Ne.symm hj)]
  · simp [addToList, hne, hk5]
  · simp [addToList, hne, hk5, hmod]
  · simp [addToList, hne]

/-- Witness for C5: the empty registry of `initList` has count 0 and an empty slot
0, so the theorem applies to registering the sample sensor there. -/
theorem addToList_first_empty_witness :
    initList.currentActive < 255 ∧ (∃ i, i < 255 ∧ SlotEmpty initList i) ∧
    ∃ k, k < 255 ∧ SlotEmpty initList k ∧ (∀ j, j < k → ¬ SlotEmpty initList j) ∧
      (addToList initList (some sampleSensor)).2.sensors[k]? = some (some sampleSensor) ∧
      (∀ j, j ≠ k → (addToList initList (some sampleSensor)).2.sensors[j]? =
        initList.sensors[j]?) ∧
      (addToList initList (some sampleSensor)).2.sensors.length = initList.sensors.length ∧
      (addToList initList (some sampleSensor)).2.currentActive = initList.currentActive + 1 ∧
      (addToList initList (some sampleSensor)).1 = true :=
  ⟨by decide, ⟨0, by decide, initList_slotEmpty 0 (by decide)⟩,
    addToList_first_empty initList (some sampleSensor) (by decide)
      ⟨0, by decide, initList_slotEmpty 0 (by decide)⟩⟩

/-! ### Claims on the client -/

theorem alertWait_exited_of_not_returned (sensor : Sensor) (io : AlertIO)
    (h : (alertWait sensor io).2 ≠ Outcome.returned) :
    (alertWait sensor io).2 = Outcome.exited EXIT_FAILURE := by
  revert h
  unfold alertWait
  simp only
  split_ifs <;> simp

theorem alertWait_returned_iff (sensor : Sensor) (io : AlertIO) :
    (alertWait sensor io).2 = Outcome.returned ↔
      (0 ≤ io.socketFD ∧ 0 ≤ io.connectRes ∧ io.bytesSent = (SIZEOF_SENSOR_ALERT : Int) ∧
        io.bytesReceived = (SIZEOF_SENSOR_ALERT : Int) ∧ io.reply.type ≠ ALERT) := by
  unfold alertWait
  simp only
  split_ifs <;> simp_all <;> omega

theorem split_at_unique {α : Type} (p : α → Bool) (A B pre post : List α) (x e : α)
    (hA : ∀ a ∈ A, p a = false) (hB : ∀ b ∈ B, p b = false) (he : p e = true)
    (h : A ++ x :: B = pre ++ e :: post) : pre = A ∧ e = x ∧ post = B := by
  induction A generalizing pre with
  | nil =>
    cases pre with
    | nil =>
      simp only [List.nil_append, List.cons.injEq] at h
      exact ⟨rfl, h.1.symm, h.2.symm⟩
    | cons y pre2 =>
      simp only [List.nil_append, List.cons_append, List.cons.injEq] at h
      have hmem : e ∈ B := by rw [h.2]; simp
      rw [hB e hmem] at he
      exact Bool.noConfusion he
  | cons a A2 ih =>
    cases pre with
    | nil =>
      simp only [List.nil_append, List.cons_append, List.cons.injEq] at h
      have ha := hA a (by simp)
      rw [h.1, he] at ha
      exact Bool.noConfusion ha
    | cons y pre2 =>
      simp only [List.cons_append, List.cons.injEq] at h
      obtain ⟨h1, h2, h3⟩ := ih pre2 (fun b hb => hA b (by simp [hb])) h.2
      exact ⟨by rw [h.1, h1], h2, h3⟩

theorem alertWait_no_sendto (sensor : Sensor) (io : AlertIO) :
    ∀ e ∈ (alertWait sensor io).1, e.isSentPayload = false := by
  unfold alertWait
  simp only
  split_ifs <;> simp [ClientEvent.isSentPayload]

theorem alertWait_returned_events (sensor : Sensor) (io : AlertIO)
    (h : (alertWait sensor io).2 = Outcome.returned) :
    (alertWait sensor io).1 =
      [ClientEvent.connected io.socketFD sensor.addr,
       ClientEvent.sentAlert io.socketFD (SensorAlert.mk ALERT sensor) SIZEOF_SENSOR_ALERT,
       ClientEvent.received io.socketFD SIZEOF_SENSOR_ALERT,
       ClientEvent.closed io.socketFD] := by
  revert h
  unfold alertWait
  simp only
  split_ifs <;> simp

theorem sendLoopIteration_exited (s : Sensor) (fd : Int) (io : SendLoopIO) (status : Nat)
    (ha : alert io.payload = true) (ht : io.threadCreate = 0)
    (he : (alertWait (withPort s (htons ALERT_PORT)) io.alertIO).2 = Outcome.exited status) :
    sendLoopIteration s fd io =
      (ClientEvent.puts "ALERT" :: (alertWait (withPort s (htons ALERT_PORT)) io.alertIO).1,
        withPort s (htons ALERT_PORT), LoopStatus.exited status) := by
  simp only [sendLoopIteration, ha, ht, if_true, he]

theorem sendLoopIteration_crashed (s : Sensor) (fd : Int) (io : SendLoopIO)
    (ha : alert io.payload = true) (ht : ¬ io.threadCreate = 0)
    (hj : io.staleJoin = StaleJoin.neverReturns) :
    sendLoopIteration s fd io =
      ([ClientEvent.puts "ALERT"], withPort s (htons ALERT_PORT), LoopStatus.crashed) := by
  simp only [sendLoopIteration, ha, ht, if_true, if_false, hj]

theorem sendLoopIteration_reached (s : Sensor) (fd : Int) (io : SendLoopIO)
    (h : alert io.payload = false ∨
      (io.threadCreate = 0 ∧
        (alertWait (withPort s (htons ALERT_PORT)) io.alertIO).2 = Outcome.returned) ∨
      (¬ io.threadCreate = 0 ∧ io.staleJoin = StaleJoin.returns)) :
    ∃ tail,
      (sendLoopIteration s fd io).1 =
        (if alert io.payload = true then
            ClientEvent.puts "ALERT" ::
              (if io.threadCreate = 0 then
                (alertWait (withPort s (htons ALERT_PORT)) io.alertIO).1 else [])
          else [])
        ++ ClientEvent.printed "Sending data: "
          :: ClientEvent.sentPayload fd io.payload SIZEOF_SENSOR_PAYLOAD
              (sendLoopIteration s fd io).2.1.addr
          :: tail ∧
      (∀ e ∈ tail, e.isSentPayload = false) ∧
      (sendLoopIteration s fd io).2.1 =
        (if alert io.payload = true then withPort s (htons SEND_PORT) else s) ∧
      (sendLoopIteration s fd io).2.2 =
        (if io.bytesSent = -1 ∨ io.bytesSent ≠ (SIZEOF_SENSOR_PAYLOAD : Int)
          then LoopStatus.stops else LoopStatus.continues) := by
  have key : ∀ (front : List ClientEvent) (s1 : Sensor),
      sendLoopIteration s fd io =
        (front
          ++ [ClientEvent.printed "Sending data: ",
              ClientEvent.sentPayload fd io.payload SIZEOF_SENSOR_PAYLOAD s1.addr,
              ClientEvent.printedPayload s1.id io.payload]
          ++ (if io.bytesSent = -1 then [ClientEvent.perror "Sending failed"]
              else if io.bytesSent ≠ (SIZEOF_SENSOR_PAYLOAD : Int) then
                [ClientEvent.perror "Partial message sent"]
              else [])
          ++ [ClientEvent.slept TICK],
          s1,
          if io.bytesSent = -1 ∨ io.bytesSent ≠ (SIZEOF_SENSOR_PAYLOAD : Int)
            then LoopStatus.stops else LoopStatus.continues) →
      ∃ tail,
        (sendLoopIteration s fd io).1 =
          front ++ ClientEvent.printed "Sending data: "
            :: ClientEvent.sentPayload fd io.payload SIZEOF_SENSOR_PAYLOAD
                (sendLoopIteration s fd io).2.1.addr
            :: tail ∧
        (∀ e ∈ tail, e.isSentPayload = false) ∧
        (sendLoopIteration s fd io).2.1 = s1 ∧
        (sendLoopIteration s fd io).2.2 =
          (if io.bytesSent = -1 ∨ io.bytesSent ≠ (SIZEOF_SENSOR_PAYLOAD : Int)
            then LoopStatus.stops else LoopStatus.continues) := by
    intro front s1 hval
    rw [hval]
    refine ⟨ClientEvent.printedPayload s1.id io.payload ::
      ((if io.bytesSent = -1 then [ClientEvent.perror "Sending failed"]
        else if io.bytesSent ≠ (SIZEOF_SENSOR_PAYLOAD : Int) then
          [ClientEvent.perror "Partial message sent"]
        else []) ++ [ClientEvent.slept TICK]), ?_, ?_, rfl, rfl⟩
    · simp
    · intro e he
      split_ifs at he <;> cases e <;> simp [ClientEvent.isSentPayload] at he ⊢
  rcases h with hf | ⟨ht, hr⟩ | ⟨ht, hj⟩
  · have hval := key [] s (by simp [sendLoopIteration, hf])
    simpa [hf] using hval
  · by_cases ha : alert io.payload = true
    · have hval := key
        (ClientEvent.puts "ALERT" :: (alertWait (withPort s (htons ALERT_PORT)) io.alertIO).1)
        (withPort s (htons SEND_PORT))
        (by simp only [sendLoopIteration, ha, ht, if_true, hr])
      simpa [ha, ht] using hval
    · have hf : alert io.payload = false := by simpa using ha
      have hval := key [] s (by simp [sendLoopIteration, hf])
      simpa [hf] using hval
  · by_cases ha : alert io.payload = true
    · have hval := key [ClientEvent.puts "ALERT"] (withPort s (htons SEND_PORT))
        (by simp only [sendLoopIteration, ha, ht, if_true, if_false, hj])
      simpa [ha, ht] using hval
    · have hf : alert io.payload = false := by simpa using ha
      have hval := key [] s (by simp [sendLoopIteration, hf])
      simpa [hf] using hval

theorem sendLoopIteration_trichotomy (s : Sensor) (io : SendLoopIO) :
    (alert io.payload = false ∨
      (io.threadCreate = 0 ∧
        (alertWait (withPort s (htons ALERT_PORT)) io.alertIO).2 = Outcome.returned) ∨
      (¬ io.threadCreate = 0 ∧ io.staleJoin = StaleJoin.returns)) ∨
    (alert io.payload = true ∧ io.threadCreate = 0 ∧
      (alertWait (withPort s (htons ALERT_PORT)) io.alertIO).2
        = Outcome.exited EXIT_FAILURE) ∨
    (alert io.payload = true ∧ ¬ io.threadCreate = 0 ∧
      io.staleJoin = StaleJoin.neverReturns) := by
  cases ha : alert io.payload
  · exact Or.inl (Or.inl rfl)
  · by_cases ht : io.threadCreate = 0
    · by_cases hr : (alertWait (withPort s (htons ALERT_PORT)) io.alertIO).2 = Outcome.returned
      · exact Or.inl (Or.inr (Or.inl ⟨ht, hr⟩))
      · exact Or.inr (Or.inl ⟨rfl, ht, alertWait_exited_of_not_returned _ _ hr⟩)
    · cases hj : io.staleJoin
      · exact Or.inl (Or.inr (Or.inr ⟨ht, rfl⟩))
      · exact Or.inr (Or.inr ⟨rfl, ht, rfl⟩)

theorem sendLoopIteration_sendto_iff (s : Sensor) (fd : Int) (io : SendLoopIO) :
    (∃ e ∈ (sendLoopIteration s fd io).1, e.isSentPayload = true) ↔
      (alert io.payload = false ∨
        (io.threadCreate = 0 ∧
          (alertWait (withPort s (htons ALERT_PORT)) io.alertIO).2 = Outcome.returned) ∨
        (¬ io.threadCreate = 0 ∧ io.staleJoin = StaleJoin.returns)) := by
  constructor
  · rintro ⟨e, hmem, he⟩
    rcases sendLoopIteration_trichotomy s io with h | ⟨ha, ht, hex⟩ | ⟨ha, ht, hj⟩
    · exact h
    · exfalso
      rw [sendLoopIteration_exited s fd io EXIT_FAILURE ha ht hex] at hmem
      simp only [List.mem_cons] at hmem
      rcases hmem with h | h
      · rw [h] at he
        exact Bool.noConfusion he
      · rw [alertWait_no_sendto _ _ e h] at he
        exact Bool.noConfusion he
    · exfalso
      rw [sendLoopIteration_crashed s fd io ha ht hj] at hmem
      simp only [List.mem_cons, List.not_mem_nil, or_false] at hmem
      rw [hmem] at he
      exact Bool.noConfusion he
  · intro h
    obtain ⟨tail, hev, _, _, _⟩ := sendLoopIteration_reached s fd io h
    refine ⟨ClientEvent.sentPayload fd io.payload SIZEOF_SENSOR_PAYLOAD
      (sendLoopIteration s fd io).2.1.addr, ?_, rfl⟩
    rw [hev]
    simp

/-- C1: for every payload `p`, `alert p` is true if and only if
`p.temperature > 50` or `p.humidity > 60` or `p.airQuality < 10` (the three
thresholds of protocol.h); in particular the payload with temperature 55,
humidity 10 and air quality 50 raises the alert, and the iteration of the send
loop that generated it starts with the alert excursion: `puts("ALERT")` comes
first on every path, followed by the run of `alertWait` towards the alert port
when the alert thread is created. -/
theorem alert_iff_thresholds :
    (MAX_ALERT_TEMPERATURE = 50 ∧ MAX_ALERT_HUMIDITY = 60 ∧ MIN_ALERT_AIR_QUALITY = 10) ∧
    (∀ p : SensorPayload,
      alert p = true ↔ (p.temperature > 50 ∨ p.humidity > 60 ∨ p.airQuality < 10)) ∧
    (∀ ts : Int, alert (breachPayload ts) = true) ∧
    (∀ (ts : Int) (s : Sensor) (fd : Int) (io : SendLoopIO),
      io.payload = breachPayload ts → io.threadCreate = 0 →
      ∃ rest,
        (sendLoopIteration s fd io).1 =
          ClientEvent.puts "ALERT" ::
            (alertWait (withPort s (htons ALERT_PORT)) io.alertIO).1 ++ rest) ∧
    (∀ (ts : Int) (s : Sensor) (fd : Int) (io : SendLoopIO),
      io.payload = breachPayload ts →
      ∃ rest, (sendLoopIteration s fd io).1 = ClientEvent.puts "ALERT" :: rest) := by
  have hbreach : ∀ ts : Int, alert (breachPayload ts) = true := by
    intro ts
    simp [alert, breachPayload, MAX_ALERT_TEMPERATURE]
  have hall : ∀ (ts : Int) (s : Sensor) (fd : Int) (io : SendLoopIO),
      io.payload = breachPayload ts →
      ∃ rest, (sendLoopIteration s fd io).1 =
        ClientEvent.puts "ALERT" ::
          (if io.threadCreate = 0 then
            (alertWait (withPort s (htons ALERT_PORT)) io.alertIO).1 else []) ++ rest := by
    intro ts s fd io hp
    have ha : alert io.payload = true := by rw [hp]; exact hbreach ts
    rcases sendLoopIteration_trichotomy s io with h | ⟨_, ht, hex⟩ | ⟨_, ht, hj⟩
    · obtain ⟨tail, hev, _, _, _⟩ := sendLoopIteration_reached s fd io h
      rw [if_pos ha] at hev
      exact ⟨_, by rw [hev]⟩
    · rw [sendLoopIteration_exited s fd io EXIT_FAILURE ha ht hex]
      exact ⟨[], by simp [ht]⟩
    · rw [sendLoopIteration_crashed s fd io ha ht hj]
      exact ⟨[], by simp [ht]⟩
  refine ⟨⟨rfl, rfl, rfl⟩, ?_, hbreach, ?_, ?_⟩
  · intro p
    simp [alert, MAX_ALERT_TEMPERATURE, MAX_ALERT_HUMIDITY, MIN_ALERT_AIR_QUALITY, or_assoc]
  · intro ts s fd io hp ht
    obtain ⟨rest, hrest⟩ := hall ts s fd io hp
    rw [if_pos ht] at hrest
    exact ⟨rest, hrest⟩
  · intro ts s fd io hp
    obtain ⟨rest, hrest⟩ := hall ts s fd io hp
    exact ⟨_, hrest⟩

/-- C6: `alertWait` terminates the process (`exit(EXIT_FAILURE)`) whenever the
alert `send` or the reply `recv` fails or transfers a byte count different from
`sizeof(SensorAlert)`, and whenever the reply has type `ALERT`; when the socket
and the connection were obtained, both transfers are full-size and the reply has
type `REACTIVATE`, it closes the connection as its last action and returns. In
the send loop, once the alert thread runs `alertWait`, an excursion that returns
is followed by the `sendto` of the iteration (the loop resumes), and one that
exits ends the iteration at once with the process terminated. -/
theorem alertWait_outcome (sensor : Sensor) (io : AlertIO) :
    ((io.bytesSent < 0 ∨ io.bytesSent ≠ (SIZEOF_SENSOR_ALERT : Int)) →
      (alertWait sensor io).2 = Outcome.exited EXIT_FAILURE) ∧
    ((io.bytesReceived < 0 ∨ io.bytesReceived ≠ (SIZEOF_SENSOR_ALERT : Int)) →
      (alertWait sensor io).2 = Outcome.exited EXIT_FAILURE) ∧
    (io.reply.type = ALERT → (alertWait sensor io).2 = Outcome.exited EXIT_FAILURE) ∧
    (0 ≤ io.socketFD → 0 ≤ io.connectRes →
      io.bytesSent = (SIZEOF_SENSOR_ALERT : Int) →
      io.bytesReceived = (SIZEOF_SENSOR_ALERT : Int) →
      io.reply.type = REACTIVATE →
        alertWait sensor io =
          ([ClientEvent.connected io.socketFD sensor.addr,
            ClientEvent.sentAlert io.socketFD { type := ALERT, sensor := sensor }
              SIZEOF_SENSOR_ALERT,
            ClientEvent.received io.socketFD SIZEOF_SENSOR_ALERT,
            ClientEvent.closed io.socketFD],
           Outcome.returned)) ∧
    (∀ (s : Sensor) (fd : Int) (lio : SendLoopIO),
      lio.alertIO = io → lio.threadCreate = 0 →
      alert lio.payload = true → sensor = withPort s (htons ALERT_PORT) →
        ((alertWait sensor io).2 = Outcome.returned →
          (∀ status, (sendLoopIteration s fd lio).2.2 ≠ LoopStatus.exited status) ∧
          (sendLoopIteration s fd lio).2.2 ≠ LoopStatus.crashed ∧
          ClientEvent.sentPayload fd lio.payload SIZEOF_SENSOR_PAYLOAD
              (withPort s (htons SEND_PORT)).addr ∈ (sendLoopIteration s fd lio).1) ∧
        ((alertWait sensor io).2 = Outcome.exited EXIT_FAILURE →
          (sendLoopIteration s fd lio).1 =
              ClientEvent.puts "ALERT" :: (alertWait sensor io).1 ∧
          (sendLoopIteration s fd lio).2.2 = LoopStatus.exited EXIT_FAILURE)) := by
  have hexit : ∀ {P : Prop}, (P → (alertWait sensor io).2 ≠ Outcome.returned) →
      P → (alertWait sensor io).2 = Outcome.exited EXIT_FAILURE :=
    fun hP p => alertWait_exited_of_not_returned sensor io (hP p)
  refine ⟨hexit ?_, hexit ?_, hexit ?_, ?_, ?_⟩
  · intro h hr
    have := (alertWait_returned_iff sensor io).mp hr
    omega
  · intro h hr
    have := (alertWait_returned_iff sensor io).mp hr
    omega
  · intro h hr
    exact ((alertWait_returned_iff sensor io).mp hr).2.2.2.2 h
  · intro h1 h2 h3 h4 h5
    have h6 : ¬ io.reply.type = ALERT := by rw [h5]; decide
    have h7 : ¬ io.socketFD < 0 := by omega
    have h8 : ¬ io.connectRes < 0 := by omega
    have h9 : ¬ ((SIZEOF_SENSOR_ALERT : Int) < 0) := by decide
    simp [alertWait, h3, h4, h6, h7, h8, h9]
  · intro s fd lio hio ht ha hs
    subst hs
    subst hio
    refine ⟨?_, ?_⟩
    · intro hr
      obtain ⟨tail, hev, _, hs1, hst⟩ :=
        sendLoopIteration_reached s fd lio (Or.inr (Or.inl ⟨ht, hr⟩))
      rw [if_pos ha] at hev hs1
      refine ⟨?_, ?_, ?_⟩
      · intro status h
        rw [hst] at h
        split_ifs at h
      · intro h
        rw [hst] at h
        split_ifs at h
      · rw [hev, hs1]
        simp
    · intro he
      rw [sendLoopIteration_exited s fd lio EXIT_FAILURE ha ht he]
      exact ⟨rfl, rfl⟩

/-! ### Claims on the alert/reactivation coordinator -/

/-- C8: for one alert connection, `handleErrors` starts a `rebootSensor` worker
only if the initial `recv` returned exactly `sizeof(SensorAlert)` bytes and the
message type is `ALERT`; when the read is short, absent or failed (any other
byte count), or the type is not `ALERT`, no worker is started and nothing is
ever sent on the connection, whatever the environment answers afterwards. -/
theorem handleErrors_starts_worker_only_on_full_alert (io : AlertConnIO) (bytesSent : Int) :
    ((handleErrorsIteration io).2 ≠ none →
      io.bytesReceived = (SIZEOF_SENSOR_ALERT : Int) ∧ io.alertMsg.type = ALERT) ∧
    ((io.bytesReceived ≠ (SIZEOF_SENSOR_ALERT : Int) ∨ io.alertMsg.type ≠ ALERT) →
      (handleErrorsIteration io).2 = none ∧
      ∀ e ∈ alertConnection io bytesSent, e.isSent = false) := by
  have hstart : (handleErrorsIteration io).2 ≠ none →
      io.bytesReceived = (SIZEOF_SENSOR_ALERT : Int) ∧ io.alertMsg.type = ALERT := by
    unfold handleErrorsIteration
    split_ifs <;> simp_all
  have hquiet : ∀ e ∈ (handleErrorsIteration io).1, e.isSent = false := by
    unfold handleErrorsIteration
    split_ifs <;> simp [ServerEvent.isSent]
  refine ⟨hstart, ?_⟩
  intro hbad
  have hnone : (handleErrorsIteration io).2 = none := by
    by_contra hne
    have := hstart hne
    rcases hbad with h | h
    · exact h this.1
    · exact h this.2
  refine ⟨hnone, ?_⟩
  intro e he
  unfold alertConnection at he
  cases hres : handleErrorsIteration io with
  | mk events worker =>
    rw [hres] at he hnone hquiet
    simp only at hnone
    subst hnone
    exact hquiet e he

/-! ### Claims on telemetry ingest -/

theorem recvfromReturn_full_iff (d : Datagram) :
    recvfromReturn (RecvFromResult.datagram d) SIZEOF_SENSOR_PAYLOAD
        = (SIZEOF_SENSOR_PAYLOAD : Int) ↔ SIZEOF_SENSOR_PAYLOAD ≤ d.length := by
  simp only [recvfromReturn]
  constructor
  · intro h
    have h2 : min d.length SIZEOF_SENSOR_PAYLOAD = SIZEOF_SENSOR_PAYLOAD := by exact_mod_cast h
    omega
  · intro h
    have h2 : min d.length SIZEOF_SENSOR_PAYLOAD = SIZEOF_SENSOR_PAYLOAD := by omega
    rw [h2]

theorem handleSensorStep_output (representable : Int → Bool) (sensor : Sensor)
    (r : RecvFromResult) :
    (handleSensorStep representable sensor r).2 =
      match r with
      | RecvFromResult.error => ([], WorkerStatus.running)
      | RecvFromResult.datagram d =>
        if SIZEOF_SENSOR_PAYLOAD ≤ d.length then
          if representable d.payload.timestamp = true then
            ([ServerEvent.printedPayload sensor.id d.payload], WorkerStatus.running)
          else ([], WorkerStatus.crashed)
        else ([], WorkerStatus.running) := by
  cases r with
  | error => rfl
  | datagram d =>
    have hret := recvfromReturn_full_iff d
    by_cases h : SIZEOF_SENSOR_PAYLOAD ≤ d.length
    · have hfull := hret.mpr h
      by_cases ht : representable d.payload.timestamp = true
      · simp [handleSensorStep, recvfromRecord, hfull, h, ht]
      · simp [handleSensorStep, recvfromRecord, hfull, h, ht]
    · have hnot : ¬ recvfromReturn (RecvFromResult.datagram d) SIZEOF_SENSOR_PAYLOAD
          = (SIZEOF_SENSOR_PAYLOAD : Int) := fun hc => h (hret.mp hc)
      simp [handleSensorStep, recvfromRecord, hnot, h]

/-- C9 (counterexample): a datagram of 12 bytes, longer than the 11 bytes of
`sizeof(SensorPayload)`, is cut to the buffer by `recvfrom`, which returns 11;
its timestamp 0 is one `localtime` represents, and `handleSensor` prints its
payload line. So a datagram whose length differs from `sizeof(SensorPayload)`
can produce output. -/
theorem handleSensor_prints_longer_datagram :
    longDatagram.length ≠ SIZEOF_SENSOR_PAYLOAD ∧
    recvfromReturn (RecvFromResult.datagram longDatagram) SIZEOF_SENSOR_PAYLOAD = 11 ∧
    sampleLocaltime longDatagram.payload.timestamp = true ∧
    (handleSensorStep sampleLocaltime sampleSensor
        (RecvFromResult.datagram longDatagram)).2 =
      ([ServerEvent.printedPayload 7 (breachPayload 0)], WorkerStatus.running) ∧
    ¬ (∀ (representable : Int → Bool) (sensor : Sensor) (d : Datagram),
        (handleSensorStep representable sensor (RecvFromResult.datagram d)).2.1 ≠ [] ↔
          d.length = SIZEOF_SENSOR_PAYLOAD) := by
  have hstep : (handleSensorStep sampleLocaltime sampleSensor
      (RecvFromResult.datagram longDatagram)).2 =
      ([ServerEvent.printedPayload 7 (breachPayload 0)], WorkerStatus.running) := by
    rw [handleSensorStep_output]
    rfl
  refine ⟨by decide, by decide, by decide, hstep, ?_⟩
  intro hall
  have h := (hall sampleLocaltime sampleSensor longDatagram).mp (by rw [hstep]; simp)
  exact absurd h (by decide)

/-- The unchecked `localtime`: a full-size datagram whose timestamp is 2^62, which
`localtime` cannot represent, makes the worker crash before it prints. -/
theorem handleSensor_crashes_on_far_future_timestamp :
    sampleLocaltime farFutureDatagram.payload.timestamp = false ∧
    (handleSensorStep sampleLocaltime sampleSensor
        (RecvFromResult.datagram farFutureDatagram)).2 = ([], WorkerStatus.crashed) ∧
    handleSensor sampleLocaltime sampleSensor
        [RecvFromResult.datagram farFutureDatagram, RecvFromResult.datagram longDatagram]
      = [] := by
  refine ⟨by decide, ?_, ?_⟩
  · rw [handleSensorStep_output]
    rfl
  · have h : (handleSensorStep sampleLocaltime sampleSensor
        (RecvFromResult.datagram farFutureDatagram)).2 = ([], WorkerStatus.crashed) := by
      rw [handleSensorStep_output]
      rfl
    simp only [handleSensor, h]

/-- C9 (amended): for every outcome of `recvfrom` on the telemetry endpoint, a
payload line is printed only if `recvfrom` returned exactly
`sizeof(SensorPayload)`, which for a datagram holds if and only if its length is
at least `sizeof(SensorPayload)`. A shorter datagram or a failed receive
produces no output and the loop continues with the next receive. A datagram at
least that long (cut to the buffer when longer) whose timestamp `localtime` can
represent has its payload line printed, and the loop continues with the next
receive. -/
theorem handleSensor_prints_iff_full_read (representable : Int → Bool) (sensor : Sensor)
    (r : RecvFromResult) (rest : List RecvFromResult) :
    ((handleSensorStep representable sensor r).2.1 ≠ [] →
      recvfromReturn r SIZEOF_SENSOR_PAYLOAD = (SIZEOF_SENSOR_PAYLOAD : Int)) ∧
    (recvfromReturn r SIZEOF_SENSOR_PAYLOAD ≠ (SIZEOF_SENSOR_PAYLOAD : Int) →
      (handleSensorStep representable sensor r).2 = ([], WorkerStatus.running)) ∧
    (∀ d : Datagram, r = RecvFromResult.datagram d →
      (recvfromReturn r SIZEOF_SENSOR_PAYLOAD = (SIZEOF_SENSOR_PAYLOAD : Int) ↔
        SIZEOF_SENSOR_PAYLOAD ≤ d.length) ∧
      (SIZEOF_SENSOR_PAYLOAD ≤ d.length → representable d.payload.timestamp = true →
        (handleSensorStep representable sensor r).2 =
          ([ServerEvent.printedPayload sensor.id d.payload], WorkerStatus.running)) ∧
      (d.length < SIZEOF_SENSOR_PAYLOAD →
        (handleSensorStep representable sensor r).2 = ([], WorkerStatus.running))) ∧
    (r = RecvFromResult.error →
      (handleSensorStep representable sensor r).2 = ([], WorkerStatus.running)) ∧
    ((handleSensorStep representable sensor r).2.2 = WorkerStatus.running →
      handleSensor representable sensor (r :: rest) =
        (handleSensorStep representable sensor r).2.1
          ++ handleSensor representable (handleSensorStep representable sensor r).1 rest) := by
  refine ⟨?_, ?_, ?_, ?_, ?_⟩
  · rw [handleSensorStep_output]
    cases r with
    | error => simp
    | datagram d =>
      by_cases h : SIZEOF_SENSOR_PAYLOAD ≤ d.length
      · intro _
        exact (recvfromReturn_full_iff d).mpr h
      · simp [h]
  · intro hne
    rw [handleSensorStep_output]
    cases r with
    | error => rfl
    | datagram d =>
      have h : ¬ SIZEOF_SENSOR_PAYLOAD ≤ d.length :=
        fun hc => hne ((recvfromReturn_full_iff d).mpr hc)
      simp [h]
  · intro d hd
    subst hd
    refine ⟨recvfromReturn_full_iff d, ?_, ?_⟩
    · intro h ht
      rw [handleSensorStep_output]
      simp [h, ht]
    · intro h
      rw [handleSensorStep_output]
      have h2 : ¬ SIZEOF_SENSOR_PAYLOAD ≤ d.length := by omega
      simp [h2]
  · intro h
    subst h
    rfl
  · intro hrun
    simp only [handleSensor, hrun]

/-! ### Claims on registration -/

theorem handleNewConnectionsIteration_full_read (l : ActiveSensors) (io : RegistrationIO)
    (hfd : 0 ≤ io.clientFD) (hm : io.mallocOk = true) (hn : io.n = (SIZEOF_SENSOR : Int)) :
    (handleNewConnectionsIteration l io).1 =
        (addToList l (some (Sensor.mk io.received.id io.sensorAddr))).2 ∧
    (ServerEvent.stderr "Adding sensor failed" ∉ (handleNewConnectionsIteration l io).2.1 →
      (addToList l (some (Sensor.mk io.received.id io.sensorAddr))).1 = true) := by
  have h1 : ¬ io.clientFD < 0 := by omega
  have h2 : ¬ ((SIZEOF_SENSOR : Int) ≤ 0) := by decide
  unfold handleNewConnectionsIteration
  simp only [h1, hm, hn, h2, if_false, not_true_eq_false, ne_eq, not_true]
  cases hadd : (addToList l (some (Sensor.mk io.received.id io.sensorAddr))).1
  · simp
  · by_cases ht : io.threadCreate = 0 <;> simp [ht]

/-- C10: for every registration whose `recv` returns exactly `sizeof(Sensor)`
bytes and whose insert succeeds (the iteration does not report "Adding sensor
failed"), every slot of the registry that the iteration changed holds the record
with the id of the received record and the source endpoint reported by `accept`,
whatever endpoint the received record declared; and when the registry satisfied
its invariant before, that record is stored in a slot that was empty and the
active count grew by one. -/
theorem registration_stores_source_endpoint (l : ActiveSensors) (io : RegistrationIO)
    (hfd : 0 ≤ io.clientFD) (hm : io.mallocOk = true) (hn : io.n = (SIZEOF_SENSOR : Int))
    (hadd : ServerEvent.stderr "Adding sensor failed" ∉
      (handleNewConnectionsIteration l io).2.1) :
    (∀ j : Nat, (handleNewConnectionsIteration l io).1.sensors[j]? = l.sensors[j]? ∨
      (handleNewConnectionsIteration l io).1.sensors[j]? =
        some (some (Sensor.mk io.received.id io.sensorAddr))) ∧
    (RegistryInv l →
      ∃ k, k < 255 ∧ SlotEmpty l k ∧
        (handleNewConnectionsIteration l io).1.sensors[k]? =
          some (some (Sensor.mk io.received.id io.sensorAddr)) ∧
        (handleNewConnectionsIteration l io).1.currentActive = l.currentActive + 1) := by
  obtain ⟨hreg, hok⟩ := handleNewConnectionsIteration_full_read l io hfd hm hn
  have htrue := hok hadd
  rw [hreg]
  have hne : l.currentActive ≠ MAX_SENSORS := by
    intro h
    simp [addToList, h] at htrue
  refine ⟨?_, ?_⟩
  · intro j
    unfold addToList
    rw [if_neg hne]
    rcases addToListScan_spec (some (Sensor.mk io.received.id io.sensorAddr))
        MAX_SENSORS 0 l with ⟨k, _, _, hk3, _, hk5⟩ | ⟨_, heq⟩
    · rw [hk5]
      by_cases hjk : k = j
      · right
        subst hjk
        have hk : k < l.sensors.length := (List.getElem?_eq_some_iff.mp hk3).1
        simp [hk]
      · left
        simp [List.getElem?_set_ne hjk]
    · left
      rw [heq]
  · intro hinv
    have hlt : l.currentActive < 255 := by
      have := inv_count_le l hinv
      unfold MAX_SENSORS at this hne
      omega
    have hex : ∃ i, i < 255 ∧ SlotEmpty l i := by
      by_contra hnone
      have hall : ∀ j, j < MAX_SENSORS → ¬ SlotEmpty l j := by
        intro j hj hje
        exact hnone ⟨j, hj, hje⟩
      have hfull := not_slotEmpty_of_all l hall hinv.1
      rw [← hinv.2] at hfull
      exact hne hfull
    obtain ⟨k, hk1, hk2, _, hk5⟩ :=
      addToListScan_finds l (some (Sensor.mk io.received.id io.sensorAddr)) hex
    have hk : k < l.sensors.length := (List.getElem?_eq_some_iff.mp hk2).1
    have hmod : (l.currentActive + 1) % SIZE_T_MODULUS = l.currentActive + 1 := by
      apply Nat.mod_eq_of_lt
      unfold SIZE_T_MODULUS
      omega
    refine ⟨k, hk1, hk2, ?_, ?_⟩
    · simp [addToList, hne, hk5, hk]
    · simp [addToList, hne, hk5, hmod]

/-- Witness for C10: a full-size registration accepted from one endpoint while the
record declares another, on the empty registry of `initList`. -/
theorem registration_stores_source_endpoint_witness :
    sampleRegistration.received.addr ≠ sampleRegistration.sensorAddr ∧
    (handleNewConnectionsIteration initList sampleRegistration).2.1 = [] ∧
    ((∀ j : Nat, (handleNewConnectionsIteration initList sampleRegistration).1.sensors[j]? =
        initList.sensors[j]? ∨
      (handleNewConnectionsIteration initList sampleRegistration).1.sensors[j]? =
        some (some (Sensor.mk sampleRegistration.received.id sampleRegistration.sensorAddr))) ∧
    (RegistryInv initList →
      ∃ k, k < 255 ∧ SlotEmpty initList k ∧
        (handleNewConnectionsIteration initList sampleRegistration).1.sensors[k]? =
          some (some (Sensor.mk sampleRegistration.received.id sampleRegistration.sensorAddr)) ∧
        (handleNewConnectionsIteration initList sampleRegistration).1.currentActive =
          initList.currentActive + 1)) :=
  ⟨by decide, by decide,
    registration_stores_source_endpoint initList sampleRegistration
      (by decide) (by decide) (by decide) (by decide)⟩

theorem handleNewConnectionsIteration_registry (l : ActiveSensors) (io : RegistrationIO) :
    (handleNewConnectionsIteration l io).1 = l ∨
    (0 ≤ io.clientFD ∧ io.mallocOk = true ∧ io.n = (SIZEOF_SENSOR : Int) ∧
      (handleNewConnectionsIteration l io).1 =
        (addToList l (some (Sensor.mk io.received.id io.sensorAddr))).2) := by
  by_cases h1 : io.clientFD < 0
  · left; simp [handleNewConnectionsIteration, h1]
  · by_cases h2 : io.mallocOk = true
    · by_cases h4 : io.n = (SIZEOF_SENSOR : Int)
      · right
        exact ⟨by omega, h2, h4,
          (handleNewConnectionsIteration_full_read l io (by omega) h2 h4).1⟩
      · left
        by_cases h3 : io.n ≤ 0 <;> simp [handleNewConnectionsIteration, h1, h2, h3, h4]
    · left; simp [handleNewConnectionsIteration, h1, h2]

theorem handleNewConnectionsIteration_worker (l : ActiveSensors) (io : RegistrationIO) :
    (handleNewConnectionsIteration l io).2.2 ≠ none ↔
      (0 ≤ io.clientFD ∧ io.mallocOk = true ∧ io.n = (SIZEOF_SENSOR : Int) ∧
        l.currentActive ≠ MAX_SENSORS ∧ io.threadCreate = 0) := by
  have hz : SIZEOF_SENSOR ≠ 0 := by decide
  by_cases h1 : io.clientFD < 0
  · simp [handleNewConnectionsIteration, h1]
  · by_cases h2 : io.mallocOk = true
    · by_cases h4 : io.n = (SIZEOF_SENSOR : Int)
      · have h0 : 0 ≤ io.clientFD := by omega
        by_cases hc : l.currentActive = MAX_SENSORS
        · simp [handleNewConnectionsIteration, addToList, h1, h2, h4, hc, hz]
        · by_cases ht : io.threadCreate = 0 <;>
            simp [handleNewConnectionsIteration, addToList, h1, h2, h4, hc, ht, h0, hz]
      · by_cases h3 : io.n ≤ 0 <;> simp [handleNewConnectionsIteration, h1, h2, h3, h4]
    · simp [handleNewConnectionsIteration, h1, h2]

/-- C11 (counterexample): a registration read in full on the empty registry whose
worker thread cannot be created starts no worker, logs the failure and closes
the connection, yet the registry is not left unchanged: the entry stored by
`addToList` before `pthread_create` stays and the active count is 1. -/
theorem handleNewConnections_thread_failure_keeps_entry :
    threadFailRegistration.threadCreate ≠ 0 ∧
    (handleNewConnectionsIteration initList threadFailRegistration).2.2 = none ∧
    (handleNewConnectionsIteration initList threadFailRegistration).2.1 =
      [ServerEvent.perror "Thread creation failed", ServerEvent.closed 5] ∧
    (handleNewConnectionsIteration initList threadFailRegistration).1.currentActive = 1 ∧
    (handleNewConnectionsIteration initList threadFailRegistration).1 ≠ initList := by
  have hcount :
      (handleNewConnectionsIteration initList threadFailRegistration).1.currentActive = 1 := by
    rcases handleNewConnectionsIteration_registry initList threadFailRegistration with
      h | ⟨_, _, _, h⟩
    · have hw := (handleNewConnectionsIteration_full_read initList threadFailRegistration
        (by decide) (by decide) (by decide)).1
      rw [hw]
      exact (addToList_loose initList _ initList_length
        (by rw [initList_nonEmpty]; exact Nat.zero_le _) (Nat.zero_le _)).2.2
    · rw [h]
      exact (addToList_loose initList _ initList_length
        (by rw [initList_nonEmpty]; exact Nat.zero_le _) (Nat.zero_le _)).2.2
  refine ⟨by decide, by decide, by decide, hcount, ?_⟩
  intro h
  rw [h] at hcount
  exact absurd hcount (by decide)

/-- C11 (amended): one iteration of `handleNewConnections` leaves the registry
unchanged on accept failure, allocation failure, failed or short read and
registry full; when the registration succeeds (full-size read, registry with
room, worker spawned) on a registry satisfying its invariant, it adds exactly
one entry: one empty slot receives the record, the other slots are unchanged
and both the number of non-empty slots and the active count grow by one. -/
theorem handleNewConnections_registry_effect (l : ActiveSensors) (io : RegistrationIO) :
    (io.clientFD < 0 → (handleNewConnectionsIteration l io).1 = l) ∧
    (io.mallocOk = false → (handleNewConnectionsIteration l io).1 = l) ∧
    (io.n ≠ (SIZEOF_SENSOR : Int) → (handleNewConnectionsIteration l io).1 = l) ∧
    (l.currentActive = 255 → (handleNewConnectionsIteration l io).1 = l) ∧
    (0 ≤ io.clientFD → io.mallocOk = true → io.n = (SIZEOF_SENSOR : Int) →
      l.currentActive < 255 → io.threadCreate = 0 →
        (handleNewConnectionsIteration l io).2.2 =
          some (Sensor.mk io.received.id io.sensorAddr)) ∧
    (RegistryInv l → (handleNewConnectionsIteration l io).2.2 ≠ none →
      nonEmptySlots (handleNewConnectionsIteration l io).1 = nonEmptySlots l + 1 ∧
      (handleNewConnectionsIteration l io).1.currentActive = l.currentActive + 1 ∧
      ∃ k, k < 255 ∧ SlotEmpty l k ∧
        (handleNewConnectionsIteration l io).1.sensors =
          l.sensors.set k (some (Sensor.mk io.received.id io.sensorAddr))) := by
  have hreg := handleNewConnectionsIteration_registry l io
  refine ⟨?_, ?_, ?_, ?_, ?_, ?_⟩
  · intro h
    rcases hreg with h1 | ⟨h1, _⟩
    · exact h1
    · omega
  · intro h
    rcases hreg with h1 | ⟨_, h2, _⟩
    · exact h1
    · rw [h] at h2; exact Bool.noConfusion h2
  · intro h
    rcases hreg with h1 | ⟨_, _, h3, _⟩
    · exact h1
    · exact absurd h3 h
  · intro h
    rcases hreg with h1 | ⟨_, _, _, h4⟩
    · exact h1
    · have h2 : l.currentActive = MAX_SENSORS := h
      rw [h4]
      simp [addToList, h2]
  · intro h1 h2 h3 h4 h5
    have h6 : ¬ io.clientFD < 0 := by omega
    have h7 : ¬ ((SIZEOF_SENSOR : Int) ≤ 0) := by decide
    have h8 : l.currentActive ≠ MAX_SENSORS := by unfold MAX_SENSORS; omega
    simp [handleNewConnectionsIteration, addToList, h6, h2, h3, h7, h8, h5]
  · intro hinv hw
    obtain ⟨h1, h2, h3, h4, _⟩ := (handleNewConnectionsIteration_worker l io).mp hw
    have hfull := (handleNewConnectionsIteration_full_read l io h1 h2 h3).1
    have hmax := inv_count_le l hinv
    have hlt : l.currentActive < 255 := by
      unfold MAX_SENSORS at hmax h4
      omega
    have hex : ∃ i, i < 255 ∧ SlotEmpty l i := by
      by_contra hnone
      have hall : ∀ j, j < MAX_SENSORS → ¬ SlotEmpty l j := by
        intro j hj hje
        exact hnone ⟨j, hj, hje⟩
      have hf := not_slotEmpty_of_all l hall hinv.1
      rw [← hinv.2] at hf
      exact h4 hf
    obtain ⟨k, hk1, hk2, _, hk5⟩ :=
      addToListScan_finds l (some (Sensor.mk io.received.id io.sensorAddr)) hex
    have hmod : (l.currentActive + 1) % SIZE_T_MODULUS = l.currentActive + 1 := by
      apply Nat.mod_eq_of_lt
      unfold SIZE_T_MODULUS
      omega
    have hres : (handleNewConnectionsIteration l io).1 =
        { sensors := l.sensors.set k (some (Sensor.mk io.received.id io.sensorAddr)),
          currentActive := l.currentActive + 1 } := by
      rw [hfull]
      simp [addToList, h4, hk5, hmod]
    rw [hres]
    refine ⟨?_, rfl, k, hk1, hk2, rfl⟩
    unfold nonEmptySlots
    simp only
    rw [countP_set_empty _ _ _ hk2]
    simp

/-! ### The send loop of the client -/

/-- When the alert thread is created, every `sendto` of an iteration whose payload
breaches a threshold comes after the whole run of `alertWait`: the rendezvous
has returned, its `recv` was performed and returned the full
`sizeof(SensorAlert)`, and the actions before the `sendto` are exactly
`puts("ALERT")`, the actions of `alertWait` (none of which is a `sendto`) and the
`printf` that announces the send. -/
theorem sendto_after_rendezvous (s : Sensor) (fd : Int) (io : SendLoopIO)
    (ha : alert io.payload = true) (ht : io.threadCreate = 0) :
    ∀ (pre : List ClientEvent) (e : ClientEvent) (post : List ClientEvent),
      (sendLoopIteration s fd io).1 = pre ++ e :: post → e.isSentPayload = true →
        (alertWait (withPort s (htons ALERT_PORT)) io.alertIO).2 = Outcome.returned ∧
        io.alertIO.bytesReceived = (SIZEOF_SENSOR_ALERT : Int) ∧
        pre = ClientEvent.puts "ALERT" ::
          (alertWait (withPort s (htons ALERT_PORT)) io.alertIO).1
            ++ [ClientEvent.printed "Sending data: "] ∧
        ClientEvent.received io.alertIO.socketFD SIZEOF_SENSOR_ALERT ∈
          (alertWait (withPort s (htons ALERT_PORT)) io.alertIO).1 ∧
        (∀ x ∈ (alertWait (withPort s (htons ALERT_PORT)) io.alertIO).1,
          x.isSentPayload = false) := by
  intro pre e post hsplit he
  have hreach := (sendLoopIteration_sendto_iff s fd io).mp
    ⟨e, by rw [hsplit]; simp, he⟩
  have hr : (alertWait (withPort s (htons ALERT_PORT)) io.alertIO).2 = Outcome.returned := by
    rcases hreach with h | ⟨_, h⟩ | ⟨h, _⟩
    · rw [ha] at h; exact Bool.noConfusion h
    · exact h
    · exact absurd ht h
  obtain ⟨tail, hev, htail, _, _⟩ :=
    sendLoopIteration_reached s fd io (Or.inr (Or.inl ⟨ht, hr⟩))
  rw [if_pos ha, if_pos ht] at hev
  have hev2 : (sendLoopIteration s fd io).1 =
      (ClientEvent.puts "ALERT" :: (alertWait (withPort s (htons ALERT_PORT)) io.alertIO).1
        ++ [ClientEvent.printed "Sending data: "])
      ++ ClientEvent.sentPayload fd io.payload SIZEOF_SENSOR_PAYLOAD
          (sendLoopIteration s fd io).2.1.addr :: tail := by
    rw [hev]; simp
  rw [hev2] at hsplit
  have hA : ∀ a ∈ (ClientEvent.puts "ALERT" ::
      (alertWait (withPort s (htons ALERT_PORT)) io.alertIO).1
        ++ [ClientEvent.printed "Sending data: "]), ClientEvent.isSentPayload a = false := by
    intro a hmem
    simp only [List.cons_append, List.mem_cons, List.mem_append, List.not_mem_nil,
      or_false] at hmem
    rcases hmem with h | h | h
    · rw [h]; rfl
    · exact alertWait_no_sendto _ _ a h
    · rw [h]; rfl
  obtain ⟨hpre, _, _⟩ := split_at_unique ClientEvent.isSentPayload _ _ pre post _ e hA htail he hsplit
  refine ⟨hr, ((alertWait_returned_iff _ _).mp hr).2.2.2.1, hpre, ?_, alertWait_no_sendto _ _⟩
  rw [alertWait_returned_events _ _ hr]
  simp

/-- C16 (the code at the failing input): the iteration generates the breaching
payload (55, 10, 50), `pthread_create` fails with `EAGAIN` and the join on the
indeterminate thread id returns. `main` looks at neither result: it prints
"ALERT" and goes on to the `sendto` of the payload although `alertWait` never
ran, so no alert was sent and no reply was received. When the alert thread is
created, every `sendto` of a breaching iteration does come after the complete
rendezvous. -/
theorem sendto_without_rendezvous :
    alert noThreadLoopIO.payload = true ∧ noThreadLoopIO.threadCreate ≠ 0 ∧
    sendLoopIteration sampleSensor 3 noThreadLoopIO =
      ([ClientEvent.puts "ALERT",
        ClientEvent.printed "Sending data: ",
        ClientEvent.sentPayload 3 (breachPayload 0) SIZEOF_SENSOR_PAYLOAD
          (withPort sampleSensor (htons SEND_PORT)).addr,
        ClientEvent.printedPayload 7 (breachPayload 0),
        ClientEvent.slept TICK],
       withPort sampleSensor (htons SEND_PORT), LoopStatus.continues) ∧
    (∀ (fd : Int) (len : Nat),
      ClientEvent.received fd len ∉ (sendLoopIteration sampleSensor 3 noThreadLoopIO).1) ∧
    (∀ (s : Sensor) (fd : Int) (io : SendLoopIO),
      alert io.payload = true → io.threadCreate = 0 →
      ∀ (pre : List ClientEvent) (e : ClientEvent) (post : List ClientEvent),
        (sendLoopIteration s fd io).1 = pre ++ e :: post → e.isSentPayload = true →
          (alertWait (withPort s (htons ALERT_PORT)) io.alertIO).2 = Outcome.returned ∧
          io.alertIO.bytesReceived = (SIZEOF_SENSOR_ALERT : Int) ∧
          pre = ClientEvent.puts "ALERT" ::
            (alertWait (withPort s (htons ALERT_PORT)) io.alertIO).1
              ++ [ClientEvent.printed "Sending data: "]) := by
  have hval : sendLoopIteration sampleSensor 3 noThreadLoopIO =
      ([ClientEvent.puts "ALERT",
        ClientEvent.printed "Sending data: ",
        ClientEvent.sentPayload 3 (breachPayload 0) SIZEOF_SENSOR_PAYLOAD
          (withPort sampleSensor (htons SEND_PORT)).addr,
        ClientEvent.printedPayload 7 (breachPayload 0),
        ClientEvent.slept TICK],
       withPort sampleSensor (htons SEND_PORT), LoopStatus.continues) := by
    decide
  refine ⟨by decide, by decide, hval, ?_, ?_⟩
  · intro fd len hmem
    rw [hval] at hmem
    simp at hmem
  · intro s fd io ha ht pre e post hsplit he
    obtain ⟨h1, h2, h3, _, _⟩ := sendto_after_rendezvous s fd io ha ht pre e post hsplit he
    exact ⟨h1, h2, h3⟩

/-- C18: an iteration of the send loop continues to the next one if and only if
its `sendto` was performed and reported exactly `sizeof(SensorPayload)` bytes;
when the `sendto` fails (-1) or reports any other count, `sending` is cleared:
the loop ends with that iteration, none of the later answers of the environment
is consumed (no further payload is generated or sent) and `main` returns, which
terminates the process. After an iteration that continues, the loop goes on with
the next answers. -/
theorem sendLoop_continues_iff_full_send (s : Sensor) (fd : Int) (io : SendLoopIO)
    (rest : List SendLoopIO) :
    ((sendLoopIteration s fd io).2.2 = LoopStatus.continues ↔
      ((∃ e ∈ (sendLoopIteration s fd io).1, e.isSentPayload = true) ∧
        io.bytesSent = (SIZEOF_SENSOR_PAYLOAD : Int))) ∧
    ((∃ e ∈ (sendLoopIteration s fd io).1, e.isSentPayload = true) →
      (io.bytesSent = -1 ∨ io.bytesSent ≠ (SIZEOF_SENSOR_PAYLOAD : Int)) →
        (sendLoopIteration s fd io).2.2 = LoopStatus.stops ∧
        sendLoop s fd (io :: rest) = ((sendLoopIteration s fd io).1, MainOutcome.finished)) ∧
    ((sendLoopIteration s fd io).2.2 = LoopStatus.continues →
      sendLoop s fd (io :: rest) =
        ((sendLoopIteration s fd io).1
            ++ (sendLoop (sendLoopIteration s fd io).2.1 fd rest).1,
          (sendLoop (sendLoopIteration s fd io).2.1 fd rest).2)) := by
  have hsize : ¬ ((SIZEOF_SENSOR_PAYLOAD : Int) = -1) := by decide
  refine ⟨?_, ?_, ?_⟩
  · constructor
    · intro hc
      have hreach : alert io.payload = false ∨
          (io.threadCreate = 0 ∧
            (alertWait (withPort s (htons ALERT_PORT)) io.alertIO).2 = Outcome.returned) ∨
          (¬ io.threadCreate = 0 ∧ io.staleJoin = StaleJoin.returns) := by
        rcases sendLoopIteration_trichotomy s io with h | ⟨ha, ht, hex⟩ | ⟨ha, ht, hj⟩
        · exact h
        · rw [sendLoopIteration_exited s fd io EXIT_FAILURE ha ht hex] at hc
          exact LoopStatus.noConfusion hc
        · rw [sendLoopIteration_crashed s fd io ha ht hj] at hc
          exact LoopStatus.noConfusion hc
      obtain ⟨_, _, _, _, hst⟩ := sendLoopIteration_reached s fd io hreach
      refine ⟨(sendLoopIteration_sendto_iff s fd io).mpr hreach, ?_⟩
      rw [hst] at hc
      by_contra hne
      rw [if_pos (Or.inr hne)] at hc
      exact LoopStatus.noConfusion hc
    · rintro ⟨hsent, hn⟩
      obtain ⟨_, _, _, _, hst⟩ :=
        sendLoopIteration_reached s fd io ((sendLoopIteration_sendto_iff s fd io).mp hsent)
      rw [hst, hn]
      simp [hsize]
  · intro hsent hbad
    obtain ⟨_, _, _, _, hst⟩ :=
      sendLoopIteration_reached s fd io ((sendLoopIteration_sendto_iff s fd io).mp hsent)
    have hstop : (sendLoopIteration s fd io).2.2 = LoopStatus.stops := by
      rw [hst, if_pos hbad]
    refine ⟨hstop, ?_⟩
    simp only [sendLoop, hstop]
  · intro hc
    simp only [sendLoop, hc]

/-- C20: when the socket and the connection were obtained and both transfers are
full-size, `alertWait` returns normally, closing the connection as its last
action, for every reply whose type differs from `ALERT` (value 0), whether it
is `REACTIVATE` (value 1) or a value that is neither enumerator; the iteration
of the send loop whose alert thread ran it then goes on to its `sendto`. -/
theorem alertWait_accepts_any_non_alert (sensor : Sensor) (io : AlertIO)
    (hsock : 0 ≤ io.socketFD) (hconn : 0 ≤ io.connectRes)
    (hsent : io.bytesSent = (SIZEOF_SENSOR_ALERT : Int))
    (hrecv : io.bytesReceived = (SIZEOF_SENSOR_ALERT : Int))
    (htype : io.reply.type ≠ ALERT) :
    ALERT = 0 ∧ REACTIVATE = 1 ∧
    alertWait sensor io =
      ([ClientEvent.connected io.socketFD sensor.addr,
        ClientEvent.sentAlert io.socketFD (SensorAlert.mk ALERT sensor) SIZEOF_SENSOR_ALERT,
        ClientEvent.received io.socketFD SIZEOF_SENSOR_ALERT,
        ClientEvent.closed io.socketFD],
       Outcome.returned) ∧
    (∀ (s : Sensor) (fd : Int) (lio : SendLoopIO),
      lio.alertIO = io → lio.threadCreate = 0 →
      alert lio.payload = true → sensor = withPort s (htons ALERT_PORT) →
        (∀ status, (sendLoopIteration s fd lio).2.2 ≠ LoopStatus.exited status) ∧
        (sendLoopIteration s fd lio).2.2 ≠ LoopStatus.crashed ∧
        ClientEvent.sentPayload fd lio.payload SIZEOF_SENSOR_PAYLOAD
            (withPort s (htons SEND_PORT)).addr ∈ (sendLoopIteration s fd lio).1) := by
  have hr : (alertWait sensor io).2 = Outcome.returned :=
    (alertWait_returned_iff sensor io).mpr ⟨hsock, hconn, hsent, hrecv, htype⟩
  refine ⟨rfl, rfl, ?_, ?_⟩
  · exact Prod.ext (alertWait_returned_events sensor io hr) hr
  · intro s fd lio hio ht ha hs
    subst hs
    subst hio
    obtain ⟨tail, hev, _, hs1, hst⟩ :=
      sendLoopIteration_reached s fd lio (Or.inr (Or.inl ⟨ht, hr⟩))
    rw [if_pos ha] at hev hs1
    refine ⟨?_, ?_, ?_⟩
    · intro status h
      rw [hst] at h
      split_ifs at h
    · intro h
      rw [hst] at h
      split_ifs at h
    · rw [hev, hs1]
      simp

/-- Witness for C20: a full-size reply whose type value is 7, received by the
sample sensor addressed on the alert port. -/
theorem alertWait_accepts_any_non_alert_witness :
    oddReplyIO.reply.type = 7 ∧
    (alertWait (withPort sampleSensor (htons ALERT_PORT)) oddReplyIO).2 = Outcome.returned ∧
    (ALERT = 0 ∧ REACTIVATE = 1 ∧
    alertWait (withPort sampleSensor (htons ALERT_PORT)) oddReplyIO =
      ([ClientEvent.connected oddReplyIO.socketFD
          (withPort sampleSensor (htons ALERT_PORT)).addr,
        ClientEvent.sentAlert oddReplyIO.socketFD
          (SensorAlert.mk ALERT (withPort sampleSensor (htons ALERT_PORT)))
          SIZEOF_SENSOR_ALERT,
        ClientEvent.received oddReplyIO.socketFD SIZEOF_SENSOR_ALERT,
        ClientEvent.closed oddReplyIO.socketFD],
       Outcome.returned) ∧
    (∀ (s : Sensor) (fd : Int) (lio : SendLoopIO),
      lio.alertIO = oddReplyIO → lio.threadCreate = 0 →
      alert lio.payload = true →
      withPort sampleSensor (htons ALERT_PORT) = withPort s (htons ALERT_PORT) →
        (∀ status, (sendLoopIteration s fd lio).2.2 ≠ LoopStatus.exited status) ∧
        (sendLoopIteration s fd lio).2.2 ≠ LoopStatus.crashed ∧
        ClientEvent.sentPayload fd lio.payload SIZEOF_SENSOR_PAYLOAD
            (withPort s (htons SEND_PORT)).addr ∈ (sendLoopIteration s fd lio).1)) :=
  ⟨rfl, by decide,
    alertWait_accepts_any_non_alert (withPort sampleSensor (htons ALERT_PORT)) oddReplyIO
      (by decide) (by decide) (by decide) (by decide) (by decide)⟩

/-! ### The grace period of the coordinator -/

theorem elapsedSeconds_append (xs ys : List ServerEvent) :
    elapsedSeconds (xs ++ ys) = elapsedSeconds xs + elapsedSeconds ys := by
  induction xs with
  | nil => simp [elapsedSeconds]
  | cons x xs ih =>
    cases x <;> simp [elapsedSeconds, ih, Nat.add_assoc]

theorem rebootSensor_split (info : ReactivationSensorInfo) (bytesSent : Int) :
    ∃ after : List ServerEvent,
      rebootSensor info bytesSent =
        [ ServerEvent.printed "Sensor reactivation..." info.alert.sensor.id,
          ServerEvent.slept SENSOR_REACTIVATE_TIME,
          ServerEvent.printed "Sensor reactivated" info.alert.sensor.id ]
        ++ ServerEvent.sent info.sensorSocketFD
            (SensorAlert.mk REACTIVATE info.alert.sensor) SIZEOF_SENSOR_ALERT :: after ∧
      ∀ e ∈ after, e.isSent = false := by
  refine ⟨(if bytesSent ≤ 0 then [ServerEvent.perror "Send failed"] else [])
      ++ (if bytesSent ≠ (SIZEOF_SENSOR_ALERT : Int) then [ServerEvent.stderr "Sent only"]
          else [])
      ++ [ServerEvent.closed info.sensorSocketFD, ServerEvent.freed], ?_, ?_⟩
  · simp [rebootSensor]
  · intro e he
    split_ifs at he <;> cases e <;> simp [ServerEvent.isSent] at he ⊢

theorem handleErrorsIteration_quiet (io : AlertConnIO) :
    ∀ e ∈ (handleErrorsIteration io).1, e.isSent = false := by
  unfold handleErrorsIteration
  split_ifs <;> simp [ServerEvent.isSent]

theorem handleErrorsIteration_started (io : AlertConnIO) (info : ReactivationSensorInfo)
    (h : (handleErrorsIteration io).2 = some info) :
    info = { alert := io.alertMsg, sensorSocketFD := io.clientFD } ∧
      io.bytesReceived = (SIZEOF_SENSOR_ALERT : Int) ∧ io.alertMsg.type = ALERT := by
  unfold handleErrorsIteration at h
  split_ifs at h with h1 h2 h3 h4 h5 h6
  simp only [Option.some.injEq] at h
  refine ⟨h.symm, ?_, h4⟩
  by_contra hne
  exact h3 hne

/-- C15: in every run of `rebootSensor` the `REACTIVATE` message is sent only
after the worker's `sleep(SENSOR_REACTIVATE_TIME)`, with `SENSOR_REACTIVATE_TIME`
equal to 3: whenever a message is sent on an alert connection, the alert had
been read in full before the worker was started, the actions before the send
are those of the accepting iteration followed by the worker's announcement, its
sleep of 3 seconds and its second announcement, so at least 3 seconds have
elapsed since the alert was read. -/
theorem reply_after_grace_period (io : AlertConnIO) (bytesSent : Int) :
    SENSOR_REACTIVATE_TIME = 3 ∧
    (∀ (info : ReactivationSensorInfo) (pre : List ServerEvent) (e : ServerEvent)
        (post : List ServerEvent),
      rebootSensor info bytesSent = pre ++ e :: post → e.isSent = true →
        pre = [ ServerEvent.printed "Sensor reactivation..." info.alert.sensor.id,
                ServerEvent.slept 3,
                ServerEvent.printed "Sensor reactivated" info.alert.sensor.id ] ∧
        elapsedSeconds pre = 3) ∧
    (∀ (pre : List ServerEvent) (e : ServerEvent) (post : List ServerEvent),
      alertConnection io bytesSent = pre ++ e :: post → e.isSent = true →
        io.bytesReceived = (SIZEOF_SENSOR_ALERT : Int) ∧
        e = ServerEvent.sent io.clientFD (SensorAlert.mk REACTIVATE io.alertMsg.sensor)
              SIZEOF_SENSOR_ALERT ∧
        pre = (handleErrorsIteration io).1
          ++ [ ServerEvent.printed "Sensor reactivation..." io.alertMsg.sensor.id,
               ServerEvent.slept 3,
               ServerEvent.printed "Sensor reactivated" io.alertMsg.sensor.id ] ∧
        3 ≤ elapsedSeconds pre) := by
  have hworker : ∀ (info : ReactivationSensorInfo) (front pre : List ServerEvent)
      (e : ServerEvent) (post : List ServerEvent),
      (∀ a ∈ front, a.isSent = false) →
      front ++ rebootSensor info bytesSent = pre ++ e :: post → e.isSent = true →
        pre = front ++ [ ServerEvent.printed "Sensor reactivation..." info.alert.sensor.id,
                ServerEvent.slept 3,
                ServerEvent.printed "Sensor reactivated" info.alert.sensor.id ] ∧
        e = ServerEvent.sent info.sensorSocketFD
              (SensorAlert.mk REACTIVATE info.alert.sensor) SIZEOF_SENSOR_ALERT := by
    intro info front pre e post hfront hsplit he
    obtain ⟨after, hshape, hafter⟩ := rebootSensor_split info bytesSent
    rw [hshape, ← List.append_assoc] at hsplit
    have hA : ∀ a ∈ front ++ [ ServerEvent.printed "Sensor reactivation..." info.alert.sensor.id,
        ServerEvent.slept SENSOR_REACTIVATE_TIME,
        ServerEvent.printed "Sensor reactivated" info.alert.sensor.id ],
        ServerEvent.isSent a = false := by
      intro a ha
      simp only [List.mem_append, List.mem_cons, List.not_mem_nil, or_false] at ha
      rcases ha with h | h | h | h
      · exact hfront a h
      · rw [h]; rfl
      · rw [h]; rfl
      · rw [h]; rfl
    obtain ⟨h1, h2, _⟩ := split_at_unique ServerEvent.isSent _ _ pre post _ e hA hafter he hsplit
    exact ⟨h1, h2⟩
  refine ⟨rfl, ?_, ?_⟩
  · intro info pre e post hsplit he
    obtain ⟨h1, _⟩ := hworker info [] pre e post (by simp) (by simpa using hsplit) he
    rw [h1]
    exact ⟨rfl, rfl⟩
  · intro pre e post hsplit he
    unfold alertConnection at hsplit
    cases hres : handleErrorsIteration io with
    | mk events worker =>
      have hquiet := handleErrorsIteration_quiet io
      rw [hres] at hsplit hquiet
      cases worker with
      | none =>
        simp only at hsplit hquiet
        have hmem : e ∈ events := by rw [hsplit]; simp
        rw [hquiet e hmem] at he
        exact Bool.noConfusion he
      | some info =>
        simp only at hsplit hquiet
        obtain ⟨hinfo, hfull, _⟩ := handleErrorsIteration_started io info (by rw [hres])
        obtain ⟨h1, h2⟩ := hworker info events pre e post hquiet hsplit he
        subst hinfo
        refine ⟨hfull, h2, h1, ?_⟩
        rw [h1, elapsedSeconds_append]
        simp [elapsedSeconds]

/-! ### The worker's sensor record -/

theorem handleSensorStep_record (representable : Int → Bool) (sensor : Sensor)
    (r : RecvFromResult) :
    (handleSensorStep representable sensor r).1 = recvfromRecord sensor r := by
  cases r with
  | error => rfl
  | datagram d =>
    simp only [handleSensorStep]
    split_ifs <;> rfl

theorem handleSensorRecord_id (sensor : Sensor) (rs : List RecvFromResult) :
    (handleSensorRecord sensor rs).id = sensor.id := by
  induction rs generalizing sensor with
  | nil => rfl
  | cons r rest ih =>
    simp only [handleSensorRecord]
    rw [ih]
    cases r <;> rfl

theorem handleSensorRecord_append (sensor : Sensor) (rs qs : List RecvFromResult) :
    handleSensorRecord sensor (rs ++ qs) = handleSensorRecord (handleSensorRecord sensor rs) qs := by
  induction rs generalizing sensor with
  | nil => rfl
  | cons r rest ih =>
    simp only [List.cons_append, handleSensorRecord]
    exact ih _

/-- C22 (counterexample): the registration `sampleRegistration` on the empty
registry stores in slot 0 the record with id 9 and the endpoint reported by
`accept`, and starts the worker on that same record. One telemetry datagram sent
from another endpoint, whether it is accepted (11 bytes) or dropped (3 bytes),
leaves the record with the source of the datagram as its endpoint: the endpoint
stored at registration is not kept. -/
theorem handleSensor_overwrites_endpoint :
    (handleNewConnectionsIteration initList sampleRegistration).2.2 = some registeredSensor ∧
    (handleNewConnectionsIteration initList sampleRegistration).1.sensors[0]?
      = some (some registeredSensor) ∧
    telemetryDatagram.src ≠ registeredSensor.addr ∧
    handleSensorStep sampleLocaltime registeredSensor
        (RecvFromResult.datagram telemetryDatagram) =
      ({ id := 9, addr := telemetryDatagram.src },
        [ServerEvent.printedPayload 9 telemetryDatagram.payload], WorkerStatus.running) ∧
    handleSensorStep sampleLocaltime registeredSensor
        (RecvFromResult.datagram shortDatagram) =
      ({ id := 9, addr := shortDatagram.src }, [], WorkerStatus.running) ∧
    ¬ (∀ (representable : Int → Bool) (sensor : Sensor) (r : RecvFromResult),
        (handleSensorStep representable sensor r).1 = sensor) := by
  have hslot : (handleNewConnectionsIteration initList sampleRegistration).1.sensors[0]?
      = some (some registeredSensor) := by
    have hreg := (handleNewConnectionsIteration_full_read initList sampleRegistration
      (by decide) (by decide) (by decide)).1
    rw [hreg]
    obtain ⟨k, _, _, hk4, hk5⟩ := addToListScan_finds initList
      (some (Sensor.mk sampleRegistration.received.id sampleRegistration.sensorAddr))
      ⟨0, by decide, initList_slotEmpty 0 (by decide)⟩
    have hk0 : k = 0 := by
      by_contra hne
      exact hk4 0 (Nat.pos_of_ne_zero hne) (initList_slotEmpty 0 (by decide))
    subst hk0
    have hne : initList.currentActive ≠ MAX_SENSORS := by decide
    have hlen : 0 < initList.sensors.length := by rw [initList_length]; decide
    simp only [addToList, hne, if_false, hk5]
    rw [List.getElem?_set_self hlen]
    rfl
  refine ⟨by decide, hslot, by decide, by decide, by decide, ?_⟩
  intro hall
  have h := hall sampleLocaltime registeredSensor (RecvFromResult.datagram telemetryDatagram)
  revert h
  decide

/-- C22 (amended): for every outcome of `recvfrom` in `handleSensor`, and whatever
`localtime` then answers, the worker's Sensor record keeps the id stored at
registration; a failed receive leaves the whole record unchanged, while every
datagram received, accepted or dropped, replaces the endpoint of the record by
the source address of the datagram, so that the endpoint is kept exactly when
that source equals it. Over any run the id is the one stored at registration
and, after a datagram, the endpoint is the source of that datagram. -/
theorem handleSensor_keeps_id (representable : Int → Bool) (sensor : Sensor)
    (r : RecvFromResult) (rs : List RecvFromResult) :
    (handleSensorStep representable sensor r).1.id = sensor.id ∧
    (r = RecvFromResult.error → (handleSensorStep representable sensor r).1 = sensor) ∧
    (∀ d : Datagram, r = RecvFromResult.datagram d →
      (handleSensorStep representable sensor r).1.addr = d.src ∧
      ((handleSensorStep representable sensor r).1 = sensor ↔ d.src = sensor.addr)) ∧
    (handleSensorRecord sensor rs).id = sensor.id ∧
    (∀ d : Datagram,
      (handleSensorRecord sensor (rs ++ [RecvFromResult.datagram d])).addr = d.src) := by
  refine ⟨?_, ?_, ?_, handleSensorRecord_id sensor rs, ?_⟩
  · rw [handleSensorStep_record]
    cases r <;> rfl
  · intro h
    subst h
    rfl
  · intro d h
    subst h
    rw [handleSensorStep_record]
    refine ⟨rfl, ?_⟩
    constructor
    · intro heq
      have := congrArg Sensor.addr heq
      exact this
    · intro heq
      cases sensor with
      | mk id addr =>
        simp only at heq
        simp only [recvfromRecord, heq]
  · intro d
    rw [handleSensorRecord_append]
    rfl

end SensorV2

namespace MessagingApp

/-! ### The removal step of the chat relay -/

theorem shiftLeft_spec (n j : Nat) (cs : List (Option ClientInfo)) (h : j + n < cs.length) :
    ∃ cs2, shiftLeft n j cs = some cs2 ∧ cs2.length = cs.length ∧
      (∀ t, t < j → cs2[t]? = cs[t]?) ∧
      (∀ t, j ≤ t → t < j + n → cs2[t]? = cs[t + 1]?) ∧
      (∀ t, j + n ≤ t → cs2[t]? = cs[t]?) := by
  induction n generalizing j cs with
  | zero =>
    exact ⟨cs, rfl, rfl, fun _ _ => rfl, fun t h1 h2 => by omega, fun _ _ => rfl⟩
  | succ n ih =>
    have hj1 : j + 1 < cs.length := by omega
    have hget : cs[j + 1]? = some cs[j + 1] := List.getElem?_eq_getElem hj1
    have hlen : (j + 1) + n < (cs.set j cs[j + 1]).length := by
      rw [List.length_set]; omega
    obtain ⟨cs2, h1, h2, h3, h4, h5⟩ := ih (j + 1) (cs.set j cs[j + 1]) hlen
    refine ⟨cs2, ?_, ?_, ?_, ?_, ?_⟩
    · simp only [shiftLeft, hget]
      exact h1
    · rw [h2, List.length_set]
    · intro t ht
      rw [h3 t (by omega), List.getElem?_set_ne (by omega)]
    · intro t ht1 ht2
      by_cases htj : t = j
      · subst htj
        rw [h3 t (by omega), List.getElem?_set_self (by omega), hget]
      · rw [h4 t (by omega) (by omega), List.getElem?_set_ne (by omega)]
    · intro t ht
      rw [h5 t (by omega), List.getElem?_set_ne (by omega)]

theorem eraseAt_spec (l : ClientList) (k : Nat) (hk : k < l.active)
    (hlen : l.active ≤ l.clients.length) :
    ∃ l2, eraseAt l k = some l2 ∧ l2.active = l.active - 1 ∧
      l2.clients.length = l.clients.length ∧
      (∀ j, j < k → l2.clients[j]? = l.clients[j]?) ∧
      (∀ j, k ≤ j → j + 1 < l.active → l2.clients[j]? = l.clients[j + 1]?) ∧
      l2.clients[l.active - 1]? = some none ∧
      (∀ j, l.active ≤ j → l2.clients[j]? = l.clients[j]?) := by
  obtain ⟨cs2, h1, h2, h3, h4, h5⟩ :=
    shiftLeft_spec (l.active - 1 - k) k l.clients (by omega)
  have hlast : l.active - 1 < cs2.length := by rw [h2]; omega
  refine ⟨{ clients := cs2.set (l.active - 1) none, active := l.active - 1 }, ?_, rfl, ?_, ?_,
    ?_, ?_, ?_⟩
  · simp only [eraseAt, h1, hlast, if_true]
  · simp only [List.length_set, h2]
  · intro j hj
    simp only
    rw [List.getElem?_set_ne (by omega), h3 j hj]
  · intro j hj1 hj2
    simp only
    rw [List.getElem?_set_ne (by omega), h4 j hj1 (by omega)]
  · simp only
    rw [List.getElem?_set_self hlast]
  · intro j hj
    simp only
    rw [List.getElem?_set_ne (by omega), h5 j (by omega)]

theorem removeScan_spec (sock : Int) (n i : Nat) (l : ClientList)
    (hn : i + n = l.active) (hwf : Packed l)
    (hbefore : ∀ j d, j < i → l.clients[j]? = some (some d) → d.socketFD ≠ sock) :
    (∃ k c, k < l.active ∧ l.clients[k]? = some (some c) ∧ c.socketFD = sock ∧
        (∀ j d, j < k → l.clients[j]? = some (some d) → d.socketFD ≠ sock) ∧
        removeScan sock n i l = eraseAt l k) ∨
      ((∀ j d, j < l.active → l.clients[j]? = some (some d) → d.socketFD ≠ sock) ∧
        removeScan sock n i l = some l) := by
  induction n generalizing i with
  | zero =>
    right
    refine ⟨?_, rfl⟩
    intro j d hj
    exact hbefore j d (by omega)
  | succ n ih =>
    obtain ⟨c, hc⟩ := hwf i (by omega)
    by_cases hs : c.socketFD = sock
    · left
      refine ⟨i, c, by omega, hc, hs, hbefore, ?_⟩
      simp only [removeScan, hc, hs, if_true]
    · have hstep : removeScan sock (n + 1) i l = removeScan sock n (i + 1) l := by
        simp only [removeScan, hc, hs, if_false]
      rw [hstep]
      apply ih (i + 1) (by omega)
      intro j d hj hd
      by_cases hji : j = i
      · subst hji
        rw [hc] at hd
        simp only [Option.some.injEq] at hd
        rw [← hd]
        exact hs
      · exact hbefore j d (by omega) hd

theorem packed_le_length (l : ClientList) (hwf : Packed l) : l.active ≤ l.clients.length := by
  by_contra h
  obtain ⟨c, hc⟩ := hwf l.clients.length (by omega)
  have := (List.getElem?_eq_some_iff.mp hc).1
  omega

theorem fourClients_packed : Packed fourClients := by
  intro i hi
  have hi4 : i < 4 := hi
  interval_cases i <;> exact ⟨_, rfl⟩

/-- C13: on a client list whose first `active` slots are non-empty, the removal
step of `handleClient` erases the first entry whose socket is the departing
socket: the entries before it keep their positions, the entries after it (up to
the last active one) move one slot to the left in the same order, the vacated
last active slot becomes empty, the slots beyond are untouched and the active
count drops by one; when no active entry has that socket, the list and the
active count are unchanged. -/
theorem handleClient_removal_erases_first_match (l : ClientList) (sock : Int)
    (hwf : Packed l) :
    (∀ k c, k < l.active → l.clients[k]? = some (some c) → c.socketFD = sock →
      (∀ j d, j < k → l.clients[j]? = some (some d) → d.socketFD ≠ sock) →
        ∃ l2, handleClientRemoval l sock = some l2 ∧
          l2.active = l.active - 1 ∧
          l2.clients.length = l.clients.length ∧
          (∀ j, j < k → l2.clients[j]? = l.clients[j]?) ∧
          (∀ j, k ≤ j → j + 1 < l.active → l2.clients[j]? = l.clients[j + 1]?) ∧
          l2.clients[l.active - 1]? = some none ∧
          (∀ j, l.active ≤ j → l2.clients[j]? = l.clients[j]?)) ∧
    ((∀ j d, j < l.active → l.clients[j]? = some (some d) → d.socketFD ≠ sock) →
      handleClientRemoval l sock = some l) := by
  have hscan := removeScan_spec sock l.active 0 l (by omega) hwf
    (fun j d hj => absurd hj (Nat.not_lt_zero j))
  have hlen := packed_le_length l hwf
  refine ⟨?_, ?_⟩
  · intro k c hk hc hs hfirst
    rcases hscan with ⟨k2, c2, hk2, hc2, hs2, hfirst2, hres⟩ | ⟨hnone, _⟩
    · have hkk : k2 = k := by
        rcases Nat.lt_trichotomy k2 k with h | h | h
        · exact absurd hs2 (hfirst k2 c2 h hc2)
        · exact h
        · exact absurd hs (hfirst2 k c h hc)
      subst hkk
      unfold handleClientRemoval
      rw [hres]
      exact eraseAt_spec l k2 hk hlen
    · exact absurd hs (hnone k c hk hc)
  · intro hnone
    rcases hscan with ⟨k2, c2, hk2, hc2, hs2, _, _⟩ | ⟨_, hres⟩
    · exact absurd hs2 (hnone k2 c2 hk2 hc2)
    · exact hres

/-- Witness for C13: the list holding the sockets 4, 5, 6 and 7 has its first four
slots non-empty; the theorem applies to the departure of any socket. -/
theorem handleClient_removal_erases_first_match_witness :
    Packed fourClients ∧
    handleClientRemoval fourClients 5 =
      some { clients := [some (clientOn 4), some (clientOn 6), some (clientOn 7), none,
                         none, none, none, none, none, none],
             active := 3 } ∧
    ((∀ k c, k < fourClients.active → fourClients.clients[k]? = some (some c) →
      c.socketFD = 5 →
      (∀ j d, j < k → fourClients.clients[j]? = some (some d) → d.socketFD ≠ 5) →
        ∃ l2, handleClientRemoval fourClients 5 = some l2 ∧
          l2.active = fourClients.active - 1 ∧
          l2.clients.length = fourClients.clients.length ∧
          (∀ j, j < k → l2.clients[j]? = fourClients.clients[j]?) ∧
          (∀ j, k ≤ j → j + 1 < fourClients.active →
            l2.clients[j]? = fourClients.clients[j + 1]?) ∧
          l2.clients[fourClients.active - 1]? = some none ∧
          (∀ j, fourClients.active ≤ j → l2.clients[j]? = fourClients.clients[j]?)) ∧
    ((∀ j d, j < fourClients.active → fourClients.clients[j]? = some (some d) →
        d.socketFD ≠ 5) →
      handleClientRemoval fourClients 5 = some fourClients)) :=
  ⟨fourClients_packed, by decide,
    handleClient_removal_erases_first_match fourClients 5 fourClients_packed⟩

theorem handleClient_insert_remove_count (l : ClientList) (info : ClientInfo)
    (hwf : Packed l) (hlen : l.clients.length = MAX_CLIENTS) (hroom : l.active < MAX_CLIENTS) :
    (handleClientInsert l info).1 = true ∧
    ∃ l2, handleClientRemoval (handleClientInsert l info).2 info.socketFD = some l2 ∧
      l2.active = l.active := by
  have hmod : (l.active + 1) % SensorV2.SIZE_T_MODULUS = l.active + 1 := by
    apply Nat.mod_eq_of_lt
    unfold MAX_CLIENTS at hroom
    unfold SensorV2.SIZE_T_MODULUS
    omega
  have hins : handleClientInsert l info =
      (true, { clients := l.clients.set l.active (some info), active := l.active + 1 }) := by
    simp [handleClientInsert, hroom, hmod]
  have hin : l.active < l.clients.length := by rw [hlen]; exact hroom
  rw [hins]
  refine ⟨rfl, ?_⟩
  have hnew : (l.clients.set l.active (some info))[l.active]? = some (some info) :=
    List.getElem?_set_self hin
  have hwf2 : Packed (ClientList.mk (l.clients.set l.active (some info)) (l.active + 1)) := by
    intro i hi
    by_cases hia : i = l.active
    · subst hia
      exact ⟨info, hnew⟩
    · have hi2 : i < l.active := by
        have : i < l.active + 1 := hi
        omega
      obtain ⟨c, hc⟩ := hwf i hi2
      refine ⟨c, ?_⟩
      show (l.clients.set l.active (some info))[i]? = some (some c)
      rw [List.getElem?_set_ne (by omega)]
      exact hc
  have hlen2 := packed_le_length _ hwf2
  rcases removeScan_spec info.socketFD (l.active + 1) 0
      (ClientList.mk (l.clients.set l.active (some info)) (l.active + 1))
      (by simp) hwf2 (fun j d hj => absurd hj (Nat.not_lt_zero j)) with
    ⟨k, c, hk, _, _, _, hres⟩ | ⟨hnone, _⟩
  · obtain ⟨l2, h1, h2, _⟩ := eraseAt_spec _ k hk hlen2
    refine ⟨l2, ?_, ?_⟩
    · unfold handleClientRemoval
      rw [hres]
      exact h1
    · rw [h2]
      simp
  · exact absurd rfl (hnone l.active info (by simp) hnew)

end MessagingApp

namespace Sensori

/-! ### The sensor list of the Sensori server -/

/-- C12 (the code at the failing input): in the chat relay, for every client list
with its first `active` slots non-empty and room for one more entry, the
insertion of a connection followed by the removal step of that connection gives
back the active count; in the Sensori server the same holds while the list has
room for two more entries. With nine sensors connected (room for one more) the
insertion raises the count to 10 and the removal step then writes
`list.sensors[10]`, outside the 10-slot array: it has no defined result. -/
theorem insert_then_remove_count :
    (∀ (l : MessagingApp.ClientList) (info : MessagingApp.ClientInfo),
      MessagingApp.Packed l → l.clients.length = MessagingApp.MAX_CLIENTS →
      l.active < MessagingApp.MAX_CLIENTS →
        ∃ l2, MessagingApp.handleClientRemoval (MessagingApp.handleClientInsert l info).2
            info.socketFD = some l2 ∧ l2.active = l.active) ∧
    (∀ (l : SensorInfoList) (sensor : SensorInfo), l.active + 1 < MAX_SENSORS →
      ∃ l2, handleSensorRemoval (handleSensorInsert l sensor).2 = some l2 ∧
        l2.active = l.active) ∧
    (nineSensors.active < MAX_SENSORS ∧
      (handleSensorInsert nineSensors (sensorOn 13)).1 = true ∧
      (handleSensorInsert nineSensors (sensorOn 13)).2.active = 10 ∧
      handleSensorRemoval (handleSensorInsert nineSensors (sensorOn 13)).2 = none) := by
  refine ⟨?_, ?_, ?_⟩
  · intro l info hwf hlen hroom
    exact (MessagingApp.handleClient_insert_remove_count l info hwf hlen hroom).2
  · intro l sensor hroom
    have h1 : l.active < MAX_SENSORS := by omega
    have hmod : (l.active + 1) % SensorV2.SIZE_T_MODULUS = l.active + 1 := by
      apply Nat.mod_eq_of_lt
      unfold MAX_SENSORS at hroom
      unfold SensorV2.SIZE_T_MODULUS
      omega
    have hins : handleSensorInsert l sensor =
        (true, { sensors := l.sensors.set l.active (some sensor), active := l.active + 1 }) := by
      simp [handleSensorInsert, h1, hmod]
    rw [hins]
    refine ⟨SensorInfoList.mk ((l.sensors.set l.active (some sensor)).set (l.active + 1) none)
      ((l.active + 1 + SensorV2.SIZE_T_MODULUS - 1) % SensorV2.SIZE_T_MODULUS),
      by simp only [handleSensorRemoval, hroom, if_true], ?_⟩
    show (l.active + 1 + SensorV2.SIZE_T_MODULUS - 1) % SensorV2.SIZE_T_MODULUS = l.active
    have h2 : l.active + 1 + SensorV2.SIZE_T_MODULUS - 1 = l.active + SensorV2.SIZE_T_MODULUS := by
      omega
    rw [h2, Nat.add_mod_right]
    apply Nat.mod_eq_of_lt
    unfold MAX_SENSORS at hroom
    unfold SensorV2.SIZE_T_MODULUS
    omega
  · decide

/-- C14 (the code at the failing input): the list produced by `initList` satisfies
the invariant and so does the list after one sensor is inserted; the removal
step of that sensor then clears slot 1, which was already empty, and lowers the
count to 0 while slot 0 still holds the sensor: the invariant 'active count ==
number of non-empty slots' no longer holds. -/
theorem removal_breaks_invariant :
    ListInv initList ∧
    ListInv (handleSensorInsert initList (sensorOn 4)).2 ∧
    handleSensorRemoval (handleSensorInsert initList (sensorOn 4)).2 =
      some { sensors := [some (sensorOn 4), none, none, none, none, none, none, none, none,
                         none],
             active := 0 } ∧
    ¬ ListInv { sensors := [some (sensorOn 4), none, none, none, none, none, none, none, none,
                            none],
                active := 0 } := by
  decide

theorem connectAll_active (connecting : List SensorInfo) (l : SensorInfoList)
    (h : l.active ≤ MAX_SENSORS) :
    (connectAll l connecting).active = min (l.active + connecting.length) MAX_SENSORS := by
  induction connecting generalizing l with
  | nil =>
    simp only [connectAll, List.foldl_nil, List.length_nil, Nat.add_zero]
    omega
  | cons sensor rest ih =>
    have hstep : connectAll l (sensor :: rest) = connectAll (handleSensorInsert l sensor).2 rest :=
      rfl
    have hact : (handleSensorInsert l sensor).2.active = min (l.active + 1) MAX_SENSORS := by
      unfold handleSensorInsert
      by_cases hlt : l.active < MAX_SENSORS
      · have hmod : (l.active + 1) % SensorV2.SIZE_T_MODULUS = l.active + 1 := by
          apply Nat.mod_eq_of_lt
          unfold MAX_SENSORS at hlt
          unfold SensorV2.SIZE_T_MODULUS
          omega
        simp only [hlt, if_true, hmod]
        omega
      · simp only [hlt, if_false]
        omega
    rw [hstep, ih _ (by rw [hact]; omega), hact]
    simp only [List.length_cons]
    omega

/-- C21 (the code at the failing input): starting from `initList`, after the
sensors of any list have connected the active count is the smaller of their
number and `MAX_SENSORS` = 10; once ten sensors are connected the count is 10,
which is not an index of the 10-slot array, and the removal step run by any of
them writes `list.sensors[10]`: it has no defined result. -/
theorem removal_index_out_of_bounds :
    MAX_SENSORS = 10 ∧
    (∀ connecting : List SensorInfo,
      (connectAll initList connecting).active = min connecting.length 10) ∧
    (connectAll initList tenSensors).active = 10 ∧
    ¬ ((connectAll initList tenSensors).active < MAX_SENSORS) ∧
    handleSensorRemoval (connectAll initList tenSensors) = none ∧
    ¬ (∀ connecting : List SensorInfo, (connectAll initList connecting).active < MAX_SENSORS) := by
  refine ⟨rfl, ?_, by decide, by decide, by decide, ?_⟩
  · intro connecting
    have h := connectAll_active connecting initList (by decide)
    rw [h]
    simp [initList, MAX_SENSORS]
  · intro hall
    exact absurd (hall tenSensors) (by decide)

end Sensori
